import Mathlib

/-!
InfiniTensor: graph handler and MemBound TVM kernel.

A shallow embedding of

* `src/core/graph_handler.cc` (`GraphHandlerObj`, `dtype_repr_convert`), and
* `src/kernels/cuda/membound_TVM.cc` (`MemboundTVM`, `TVMRecordObj`),

followed by theorems about them.

Conventions.  A `Ref<T>` is an `Option`: `none` is the null reference.  C++
`int` values are `Int`.  Exceptions, process-fatal checks and undefined
behaviour are the `Failure` values of an explicit result; stateful code passes
its state explicitly and returns the state reached also when it fails.
-/

namespace infini

/-! ## Failures -/

/-- The ways an embedded function can fail to return normally. -/
inductive Failure where
  /-- The macro `IT_ASSERT(cond, info)` with a false condition. -/
  | assertion (info : String)
  /-- An operator rejected at construction (the operator constructor's validity check). -/
  | configurationError
  /-- A Python exception (`py::error_already_set`) leaving `getAnsorCode`. -/
  | pythonError (importError : Bool)
  /-- A failed `cast<int>()` of a Python object (`py::cast_error`). -/
  | castError
  /-- The check `checkCUresult` on a driver result other than `CUDA_SUCCESS`. -/
  | cudaError (code : Nat)
  /-- Undefined behaviour: a null reference used, a buffer overrun or a read of an
  uninitialised variable. -/
  | undefinedBehaviour
  deriving DecidableEq, Repr

/-- Modelled from the spec: the `IT_ASSERT` macro (core/common.h is not part of the
sources at hand) is a fatal assertion: it does nothing when the condition holds and
fails with the given text otherwise. -/
def IT_ASSERT (condition : Bool) (info : String) : Except Failure Unit :=
  if condition then .ok () else .error (.assertion info)

/-! ## Tensors, operators, graph -/

/-- Element types named by `dtype_repr_convert`. -/
inductive DataType where
  | Float32 | UInt32 | UInt8 | Int8 | UInt16 | Int16 | Int32 | Int64
  deriving DecidableEq, Repr

abbrev Shape := List Int

/-- A tensor object: its guid, shape, element type and raw device address. -/
structure TensorObj where
  guid : Int
  dims : Shape
  dtype : DataType
  rawDataPtr : Nat
  deriving DecidableEq, Repr

/-- The type `Tensor` is `Ref<TensorObj>`; `none` is the null reference. -/
abbrev Tensor := Option TensorObj

abbrev TensorVec := List Tensor

/-- Operator kinds built by the graph handler, and the fused kind. -/
inductive OpType where
  | Matmul | BatchNorm | MaxPool | AvgPool
  | Add | Sub | Mul | Div | Pow
  | Relu | Sigmoid | Tanh | Softmax | Abs | Identity | Flatten
  | Reshape | Concat | Gather | ReduceMean | MemBound
  deriving DecidableEq, Repr

/-- Activation attribute of a matmul (an enumeration code). -/
abbrev ActType := Int

/-- A C++ `float` attribute, kept as its bit pattern. -/
abbrev F32 := Nat

/-- The non-tensor arguments a handler function forwards to the operator constructor. -/
inductive OpAttrs where
  | none
  | matmul (transA transB : Bool) (act : ActType)
  | batchNorm (momentum eps : F32) (training : Bool)
  | pool (kh kw dh dw ph pw sh sw : Int)
  | reshape (shape : Shape)
  | concat (dim : Int)
  | gather (axis : Int)
  | reduceMean (axes : Option (List Int)) (keepdims : Bool)
  deriving DecidableEq, Repr

/-- An operator node: kind, ordered input tensors, output tensors, attributes. -/
structure OperatorObj where
  type : OpType
  inputs : TensorVec
  outputs : TensorVec
  attrs : OpAttrs
  deriving DecidableEq, Repr

/-- The single output of an operator (`getOutput`), null when it has none. -/
def OperatorObj.getOutput (op : OperatorObj) : Tensor :=
  match op.outputs with
  | [t] => t
  | _ => none

/-- The graph: the tensors and operators it owns and its guid counter. -/
structure GraphObj where
  tensors : List TensorObj
  ops : List OperatorObj
  guidCnt : Int
  deriving DecidableEq, Repr

/-- Shape and type inference of the operator kinds, which is outside the files at
hand: `none` when the inputs are incompatible with the kind. -/
structure OpRules where
  infer : OpType → TensorVec → OpAttrs → Option (Shape × DataType)

/-- Modelled from the spec: `GraphObj::addTensor` (core/graph.h is not part of the
sources at hand).  The graph assigns the next identity, owns the new tensor and
returns it. -/
def GraphObj.addTensor (g : GraphObj) (dims : Shape) (dtype : DataType) :
    TensorObj × GraphObj :=
  let t : TensorObj := { guid := g.guidCnt + 1, dims := dims, dtype := dtype, rawDataPtr := 0 }
  (t, { g with tensors := g.tensors ++ [t], guidCnt := g.guidCnt + 1 })

/-- Modelled from the spec: `GraphObj::addOpWithOutputs<T>` (core/graph.h and the
operator constructors are not part of the sources at hand).  Construction fails with
a configuration error when the inputs are incompatible with the kind; otherwise the
operator is bound to the supplied output tensor and added to the graph. -/
def GraphObj.addOpWithOutputs (g : GraphObj) (R : OpRules) (type : OpType)
    (inputs : TensorVec) (output : Tensor) (attrs : OpAttrs) :
    Except Failure OperatorObj × GraphObj :=
  match R.infer type inputs attrs with
  | none => (.error .configurationError, g)
  | some _ =>
    let op : OperatorObj := { type := type, inputs := inputs, outputs := [output], attrs := attrs }
    (.ok op, { g with ops := g.ops ++ [op] })

/-- Modelled from the spec: `GraphObj::addOp<T>` (core/graph.h and the operator
constructors are not part of the sources at hand).  Construction fails with a
configuration error when the inputs are incompatible with the kind; otherwise the
graph allocates a new output tensor with the inferred shape and type, binds the
operator to it and adds the operator. -/
def GraphObj.addOp (g : GraphObj) (R : OpRules) (type : OpType)
    (inputs : TensorVec) (_output : Tensor) (attrs : OpAttrs) :
    Except Failure OperatorObj × GraphObj :=
  match R.infer type inputs attrs with
  | none => (.error .configurationError, g)
  | some (dims, dtype) =>
    let (t, g1) := g.addTensor dims dtype
    let op : OperatorObj := { type := type, inputs := inputs, outputs := [some t], attrs := attrs }
    (.ok op, { g1 with ops := g1.ops ++ [op] })

/-! ## `GraphHandlerObj` (graph_handler.cc) -/

/-- The source codes of the element types, `enum OnnxDType` (core/graph_handler.h is
not part of the sources at hand): the integer value of each enumerator named in the
`switch` of `dtype_repr_convert`. -/
structure OnnxDType where
  FLOAT : Int
  UINT32 : Int
  UINT8 : Int
  INT8 : Int
  UINT16 : Int
  INT16 : Int
  INT32 : Int
  INT64 : Int
  deriving DecidableEq, Repr

/-- The eight enumerators in the order of the `case` labels. -/
def OnnxDType.codes (E : OnnxDType) : List Int :=
  [E.FLOAT, E.UINT32, E.UINT8, E.INT8, E.UINT16, E.INT16, E.INT32, E.INT64]

/-- The enumerator whose `case` returns the given element type. -/
def OnnxDType.codeOf (E : OnnxDType) : DataType → Int
  | .Float32 => E.FLOAT
  | .UInt32 => E.UINT32
  | .UInt8 => E.UINT8
  | .Int8 => E.INT8
  | .UInt16 => E.UINT16
  | .Int16 => E.INT16
  | .Int32 => E.INT32
  | .Int64 => E.INT64

/-- The enumerator values as the ONNX element-type table gives them. -/
def onnxCodes : OnnxDType :=
  { FLOAT := 1, UINT8 := 2, INT8 := 3, UINT16 := 4, INT16 := 5, INT32 := 6, INT64 := 7,
    UINT32 := 12 }

/-- The function `dtype_repr_convert`: the `switch` over `(OnnxDType)dtype`, its
`default` being `IT_ASSERT(false, "Unsupported data type")`. -/
def dtype_repr_convert (E : OnnxDType) (dtype : Int) : Except Failure DataType :=
  if dtype = E.FLOAT then .ok .Float32
  else if dtype = E.UINT32 then .ok .UInt32
  else if dtype = E.UINT8 then .ok .UInt8
  else if dtype = E.INT8 then .ok .Int8
  else if dtype = E.UINT16 then .ok .UInt16
  else if dtype = E.INT16 then .ok .Int16
  else if dtype = E.INT32 then .ok .Int32
  else if dtype = E.INT64 then .ok .Int64
  else
    match IT_ASSERT false "Unsupported data type" with
    | .error e => .error e
    | .ok _ => .error .undefinedBehaviour

/-- The handler holds the graph `g` it builds. -/
structure GraphHandlerObj where
  g : GraphObj
  deriving DecidableEq, Repr

/-- The method `GraphHandlerObj::tensor`: the element type is converted first (an
argument of the call), then the tensor is added to the graph. -/
def GraphHandlerObj.tensor (E : OnnxDType) (h : GraphHandlerObj) (dims : Shape) (dtype : Int) :
    Except Failure Tensor × GraphHandlerObj :=
  match dtype_repr_convert E dtype with
  | .error e => (.error e, h)
  | .ok dt =>
    let (t, g1) := h.g.addTensor dims dt
    (.ok (some t), { g := g1 })

/-- The method `GraphHandlerObj::matmul`. -/
def GraphHandlerObj.matmul (R : OpRules) (h : GraphHandlerObj) (a b y : Tensor)
    (transA transB : Bool) (bias : Tensor) (act : ActType) :
    Except Failure Tensor × GraphHandlerObj :=
  if y.isSome then
    match h.g.addOpWithOutputs R .Matmul [a, b, bias] y (.matmul transA transB act) with
    | (.error e, g1) => (.error e, { g := g1 })
    | (.ok _, g1) => (.ok y, { g := g1 })
  else
    match h.g.addOp R .Matmul [a, b, bias] y (.matmul transA transB act) with
    | (.error e, g1) => (.error e, { g := g1 })
    | (.ok op, g1) => (.ok op.getOutput, { g := g1 })

/-- The method `GraphHandlerObj::batchNorm`. -/
def GraphHandlerObj.batchNorm (R : OpRules) (h : GraphHandlerObj) (input output mean var
    scale bias : Tensor) (momentum eps : F32) (training : Bool) :
    Except Failure Tensor × GraphHandlerObj :=
  if output.isSome then
    match h.g.addOpWithOutputs R .BatchNorm [input, mean, var, scale, bias] output
        (.batchNorm momentum eps training) with
    | (.error e, g1) => (.error e, { g := g1 })
    | (.ok _, g1) => (.ok output, { g := g1 })
  else
    match h.g.addOp R .BatchNorm [input, mean, var, scale, bias] output
        (.batchNorm momentum eps training) with
    | (.error e, g1) => (.error e, { g := g1 })
    | (.ok op, g1) => (.ok op.getOutput, { g := g1 })

/-- The method `GraphHandlerObj::maxPool`. -/
def GraphHandlerObj.maxPool (R : OpRules) (h : GraphHandlerObj) (input output : Tensor)
    (kh kw dh dw ph pw sh sw : Int) : Except Failure Tensor × GraphHandlerObj :=
  if output.isSome then
    match h.g.addOpWithOutputs R .MaxPool [input] output (.pool kh kw dh dw ph pw sh sw) with
    | (.error e, g1) => (.error e, { g := g1 })
    | (.ok _, g1) => (.ok output, { g := g1 })
  else
    match h.g.addOp R .MaxPool [input] output (.pool kh kw dh dw ph pw sh sw) with
    | (.error e, g1) => (.error e, { g := g1 })
    | (.ok op, g1) => (.ok op.getOutput, { g := g1 })

/-- The method `GraphHandlerObj::avgPool`. -/
def GraphHandlerObj.avgPool (R : OpRules) (h : GraphHandlerObj) (input output : Tensor)
    (kh kw dh dw ph pw sh sw : Int) : Except Failure Tensor × GraphHandlerObj :=
  if output.isSome then
    match h.g.addOpWithOutputs R .AvgPool [input] output (.pool kh kw dh dw ph pw sh sw) with
    | (.error e, g1) => (.error e, { g := g1 })
    | (.ok _, g1) => (.ok output, { g := g1 })
  else
    match h.g.addOp R .AvgPool [input] output (.pool kh kw dh dw ph pw sh sw) with
    | (.error e, g1) => (.error e, { g := g1 })
    | (.ok op, g1) => (.ok op.getOutput, { g := g1 })

/-- The method template `DEFINE_ELEMENT_WISE_METHOD(name, obj)`, `obj` being the
operator kind. -/
def GraphHandlerObj.DEFINE_ELEMENT_WISE_METHOD (obj : OpType) (R : OpRules)
    (h : GraphHandlerObj) (a b c : Tensor) : Except Failure Tensor × GraphHandlerObj :=
  if c.isSome then
    match h.g.addOpWithOutputs R obj [a, b] c .none with
    | (.error e, g1) => (.error e, { g := g1 })
    | (.ok _, g1) => (.ok c, { g := g1 })
  else
    match h.g.addOp R obj [a, b] c .none with
    | (.error e, g1) => (.error e, { g := g1 })
    | (.ok op, g1) => (.ok op.getOutput, { g := g1 })

def GraphHandlerObj.add := GraphHandlerObj.DEFINE_ELEMENT_WISE_METHOD .Add
def GraphHandlerObj.sub := GraphHandlerObj.DEFINE_ELEMENT_WISE_METHOD .Sub
def GraphHandlerObj.mul := GraphHandlerObj.DEFINE_ELEMENT_WISE_METHOD .Mul
def GraphHandlerObj.div := GraphHandlerObj.DEFINE_ELEMENT_WISE_METHOD .Div
def GraphHandlerObj.pow := GraphHandlerObj.DEFINE_ELEMENT_WISE_METHOD .Pow

/-- The method template `DEFINE_UNARY_METHOD(name, obj)`, `obj` being the operator
kind. -/
def GraphHandlerObj.DEFINE_UNARY_METHOD (obj : OpType) (R : OpRules)
    (h : GraphHandlerObj) (x y : Tensor) : Except Failure Tensor × GraphHandlerObj :=
  if y.isSome then
    match h.g.addOpWithOutputs R obj [x] y .none with
    | (.error e, g1) => (.error e, { g := g1 })
    | (.ok _, g1) => (.ok y, { g := g1 })
  else
    match h.g.addOp R obj [x] y .none with
    | (.error e, g1) => (.error e, { g := g1 })
    | (.ok op, g1) => (.ok op.getOutput, { g := g1 })

def GraphHandlerObj.relu := GraphHandlerObj.DEFINE_UNARY_METHOD .Relu
def GraphHandlerObj.sigmoid := GraphHandlerObj.DEFINE_UNARY_METHOD .Sigmoid
def GraphHandlerObj.tanh := GraphHandlerObj.DEFINE_UNARY_METHOD .Tanh
def GraphHandlerObj.softmax := GraphHandlerObj.DEFINE_UNARY_METHOD .Softmax
def GraphHandlerObj.abs := GraphHandlerObj.DEFINE_UNARY_METHOD .Abs
def GraphHandlerObj.identity := GraphHandlerObj.DEFINE_UNARY_METHOD .Identity
def GraphHandlerObj.flatten := GraphHandlerObj.DEFINE_UNARY_METHOD .Flatten

/-- The method `GraphHandlerObj::reshape`. -/
def GraphHandlerObj.reshape (R : OpRules) (h : GraphHandlerObj) (data reshaped : Tensor)
    (shape : Shape) : Except Failure Tensor × GraphHandlerObj :=
  if reshaped.isSome then
    match h.g.addOpWithOutputs R .Reshape [data] reshaped (.reshape shape) with
    | (.error e, g1) => (.error e, { g := g1 })
    | (.ok _, g1) => (.ok reshaped, { g := g1 })
  else
    match h.g.addOp R .Reshape [data] reshaped (.reshape shape) with
    | (.error e, g1) => (.error e, { g := g1 })
    | (.ok op, g1) => (.ok op.getOutput, { g := g1 })

/-- The method `GraphHandlerObj::concat`. -/
def GraphHandlerObj.concat (R : OpRules) (h : GraphHandlerObj) (inputs : TensorVec)
    (output : Tensor) (dim : Int) : Except Failure Tensor × GraphHandlerObj :=
  if output.isSome then
    match h.g.addOpWithOutputs R .Concat inputs output (.concat dim) with
    | (.error e, g1) => (.error e, { g := g1 })
    | (.ok _, g1) => (.ok output, { g := g1 })
  else
    match h.g.addOp R .Concat inputs output (.concat dim) with
    | (.error e, g1) => (.error e, { g := g1 })
    | (.ok op, g1) => (.ok op.getOutput, { g := g1 })

/-- The method `GraphHandlerObj::gather`. -/
def GraphHandlerObj.gather (R : OpRules) (h : GraphHandlerObj) (data indices output : Tensor)
    (axis : Int) : Except Failure Tensor × GraphHandlerObj :=
  if output.isSome then
    match h.g.addOpWithOutputs R .Gather [data, indices] output (.gather axis) with
    | (.error e, g1) => (.error e, { g := g1 })
    | (.ok _, g1) => (.ok output, { g := g1 })
  else
    match h.g.addOp R .Gather [data, indices] output (.gather axis) with
    | (.error e, g1) => (.error e, { g := g1 })
    | (.ok op, g1) => (.ok op.getOutput, { g := g1 })

/-- The method `GraphHandlerObj::reduceMean`. -/
def GraphHandlerObj.reduceMean (R : OpRules) (h : GraphHandlerObj) (data reduced : Tensor)
    (axes : Option (List Int)) (keepdims : Bool) : Except Failure Tensor × GraphHandlerObj :=
  if reduced.isSome then
    match h.g.addOpWithOutputs R .ReduceMean [data] reduced (.reduceMean axes keepdims) with
    | (.error e, g1) => (.error e, { g := g1 })
    | (.ok _, g1) => (.ok reduced, { g := g1 })
  else
    match h.g.addOp R .ReduceMean [data] reduced (.reduceMean axes keepdims) with
    | (.error e, g1) => (.error e, { g := g1 })
    | (.ok op, g1) => (.ok op.getOutput, { g := g1 })

/-- The builder contract for a supplied output `y`: whenever the call returned
normally, it returned `y` itself and the graph gained exactly one operator, whose
only output is `y`, the tensors of the graph being left as they were. -/
def BoundTo (h : GraphHandlerObj) (y : Tensor)
    (res : Except Failure Tensor × GraphHandlerObj) : Prop :=
  ∀ r, res.1 = .ok r →
    r = y ∧ ∃ op : OperatorObj, res.2.g.ops = h.g.ops ++ [op] ∧ op.outputs = [y] ∧
      op.getOutput = y ∧ res.2.g.tensors = h.g.tensors

/-- The full behaviour of a construction method called on `h` with the non-null output
`y`, for the operator of the given kind, inputs and attributes: when the rules of the
kind accept it, the call returns `y` and the graph has gained exactly that operator,
bound to the output `y`; when they do not, the call fails with a configuration error and
the graph is as it was. -/
def Builds (R : OpRules) (h : GraphHandlerObj) (y : Tensor) (type : OpType)
    (inputs : TensorVec) (attrs : OpAttrs)
    (res : Except Failure Tensor × GraphHandlerObj) : Prop :=
  (R.infer type inputs attrs ≠ none →
    res = (.ok y, { g := { h.g with ops := h.g.ops ++
      [{ type := type, inputs := inputs, outputs := [y], attrs := attrs }] } })) ∧
  (R.infer type inputs attrs = none → res = (.error .configurationError, h)) ∧
  BoundTo h y res

/-! ## The device, the compiler and the synthesizer (external collaborators) -/

/-- A driver result; `CUDA_SUCCESS` is 0. -/
abbrev CUresult := Nat

def CUDA_SUCCESS : CUresult := 0

/-- A compiler result; `NVRTC_SUCCESS` is 0. -/
abbrev nvrtcResult := Nat

def NVRTC_SUCCESS : nvrtcResult := 0

/-- A loaded module, by its handle. -/
abbrev CUmodule := Nat

/-- A compiler program, by its handle. -/
abbrev nvrtcProgram := Nat

/-- A resolved kernel function: the entry point `name` of the module `module`. -/
structure CUfunction where
  module : CUmodule
  name : String
  deriving DecidableEq, Repr

/-- A Python object as far as `cast<int>()` sees it. -/
inductive PyObj where
  | int (v : Int)
  | other
  deriving DecidableEq, Repr

/-- What the call of `gen_ansor_op` gives back: a raised Python exception (an import
error or another one), or a tuple of which `getAnsorCode` reads element 0 as text and
element 3 as a list. -/
inductive PyResult where
  | raised (importError : Bool)
  | returned (code0 : String) (code3 : List PyObj)
  deriving DecidableEq, Repr

/-- The calls that leave the process: to the synthesizer, the compiler, the driver
and the runtime context, with the arguments passed. -/
inductive Call where
  | gen_ansor_op (inDims : List (List Int)) (inDTypes : List String) (outDims : List Int)
      (outDType : String) (lambda : String) (funcName : String) (inputNames : List String)
      (outputName : String)
  | cerr (text : String)
  | nvrtcCreateProgram (src : String) (name : String)
  | nvrtcCompileProgram (prog : nvrtcProgram) (options : List String)
  | nvrtcGetProgramLogSize (prog : nvrtcProgram)
  | nvrtcGetPTXSize (prog : nvrtcProgram)
  | nvrtcGetProgramLog (prog : nvrtcProgram)
  | nvrtcGetPTX (prog : nvrtcProgram)
  | nvrtcDestroyProgram (prog : nvrtcProgram)
  | cuModuleLoadDataEx (image : String)
  | cuModuleGetFunction (module : CUmodule) (name : String)
  | cuLaunchKernel (f : CUfunction) (gridDimX gridDimY gridDimZ : Nat)
      (blockDimX blockDimY blockDimZ : Nat) (sharedMemBytes : Nat) (kernelParams : List Nat)
  | cuModuleUnload (module : CUmodule)
  | sync
  deriving DecidableEq, Repr

/-- Calls to the code synthesizer. -/
def Call.isSynthesizer : Call → Bool
  | .gen_ansor_op .. => true
  | _ => false

/-- Calls to the device compiler. -/
def Call.isCompiler : Call → Bool
  | .nvrtcCreateProgram .. => true
  | .nvrtcCompileProgram .. => true
  | .nvrtcGetProgramLogSize .. => true
  | .nvrtcGetPTXSize .. => true
  | .nvrtcGetProgramLog .. => true
  | .nvrtcGetPTX .. => true
  | .nvrtcDestroyProgram .. => true
  | _ => false

/-- Calls that load a module, resolve a function, launch or unload. -/
def Call.isDevice : Call → Bool
  | .cuModuleLoadDataEx .. => true
  | .cuModuleGetFunction .. => true
  | .cuLaunchKernel .. => true
  | .cuModuleUnload .. => true
  | _ => false

/-- The state outside the process: the external calls made so far, the device
modules loaded, the compiler programs alive, and the next fresh handle. -/
structure World where
  trace : List Call
  modules : List CUmodule
  programs : List nvrtcProgram
  nextHandle : Nat
  deriving DecidableEq, Repr

def World.emit (w : World) (c : Call) : World :=
  { w with trace := w.trace ++ [c] }

/-- The result of `AsTVMVisitor` on an expression. -/
structure AsTVMVisitor where
  stmts : String
  inputShapes : List (List Int)
  outputShape : List Int
  deriving DecidableEq, Repr

/-- The fused expression of a MemBound operator, opaque here. -/
abbrev Expr := Nat

/-- The behaviour of the external collaborators.  Every answer may depend on the
whole state of the world at the time of the call. -/
structure Env where
  /-- The visitor `nnet::AsTVMVisitor` dispatched on an expression (nnet/Visitor/AsTVMVisitor.h is
  not part of the sources at hand); a function of the expression. -/
  dispatch : Expr → AsTVMVisitor
  gen_ansor_op : World → List (List Int) → List String → List Int → String → String →
    String → List String → String → PyResult
  nvrtcCreateProgram : World → String → String → nvrtcResult
  nvrtcCompileProgram : World → nvrtcProgram → List String → nvrtcResult
  /-- The size written to the out-parameter, `none` when the call fails and writes
  nothing. -/
  nvrtcGetProgramLogSize : World → nvrtcProgram → Option Nat
  nvrtcGetPTXSize : World → nvrtcProgram → Option Nat
  /-- The characters written to the buffer, `none` when the call fails and writes
  nothing. -/
  nvrtcGetProgramLog : World → nvrtcProgram → Option String
  nvrtcGetPTX : World → nvrtcProgram → Option String
  cuModuleLoadDataEx : World → String → CUresult
  cuModuleGetFunction : World → CUmodule → String → CUresult
  cuLaunchKernel : World → CUfunction → Nat → Nat → Nat → Nat → Nat → Nat → Nat →
    List Nat → CUresult
  cuModuleUnload : World → CUmodule → CUresult
  /-- The time `timeit` measures, read off the world when the measurement stops. -/
  elapsed : World → Nat
  /-- The value an unchecked read `v[i]` yields when `i` is past the end of the vector
  `v`: whatever lies in memory there. -/
  pastEnd : List Int → Nat → Int

/-- Modelled from the spec: the macro `checkCUresult` (cuda/cuda_runtime.h is not part
of the sources at hand) fails fatally on a driver result other than success. -/
def checkCUresult (r : CUresult) : Except Failure Unit :=
  if r = CUDA_SUCCESS then .ok () else .error (.cudaError r)

/-- The driver call `cuModuleLoadDataEx(&module, image, 0, nullptr, nullptr)`: on
success a fresh module is loaded and its handle written; on failure nothing is
written (the handle returned is then not a module and is never read). -/
def cuModuleLoadDataEx (env : Env) (image : String) (w : World) : (CUresult × CUmodule) × World :=
  let r := env.cuModuleLoadDataEx w image
  let w1 := w.emit (.cuModuleLoadDataEx image)
  if r = CUDA_SUCCESS then
    ((r, w.nextHandle), { w1 with modules := w.nextHandle :: w1.modules,
                                  nextHandle := w.nextHandle + 1 })
  else ((r, 0), w1)

/-- The driver call `cuModuleGetFunction(&kernel, module, name)`. -/
def cuModuleGetFunction (env : Env) (module : CUmodule) (name : String) (w : World) :
    (CUresult × CUfunction) × World :=
  ((env.cuModuleGetFunction w module name, { module := module, name := name }),
    w.emit (.cuModuleGetFunction module name))

/-- The driver call `cuLaunchKernel(f, gx, gy, gz, bx, by, bz, sharedMem, NULL, params, 0)`,
whose six dimensions and `sharedMem` are of type `unsigned int`; `kernelParams` are the
values the parameter pointers point to. -/
def cuLaunchKernel (env : Env) (f : CUfunction) (gx gy gz bx bY bz : Nat) (sharedMemBytes : Nat)
    (kernelParams : List Nat) (w : World) : CUresult × World :=
  (env.cuLaunchKernel w f gx gy gz bx bY bz sharedMemBytes kernelParams,
    w.emit (.cuLaunchKernel f gx gy gz bx bY bz sharedMemBytes kernelParams))

/-- The driver call `cuModuleUnload(module)`: on success the module is no longer
loaded. -/
def cuModuleUnload (env : Env) (module : CUmodule) (w : World) : CUresult × World :=
  let r := env.cuModuleUnload w module
  let w1 := w.emit (.cuModuleUnload module)
  if r = CUDA_SUCCESS then (r, { w1 with modules := w1.modules.erase module }) else (r, w1)

/-- The compiler call `nvrtcCreateProgram(&prog, src, name, 0, NULL, NULL)`: on success a
fresh program is alive and its handle written; on failure nothing is written. -/
def nvrtcCreateProgram (env : Env) (src name : String) (w : World) :
    (nvrtcResult × Option nvrtcProgram) × World :=
  let r := env.nvrtcCreateProgram w src name
  let w1 := w.emit (.nvrtcCreateProgram src name)
  if r = NVRTC_SUCCESS then
    ((r, some w.nextHandle), { w1 with programs := w.nextHandle :: w1.programs,
                                       nextHandle := w.nextHandle + 1 })
  else ((r, none), w1)

/-- The compiler call `nvrtcCompileProgram(prog, numOptions, options)`. -/
def nvrtcCompileProgram (env : Env) (prog : nvrtcProgram) (options : List String) (w : World) :
    nvrtcResult × World :=
  (env.nvrtcCompileProgram w prog options, w.emit (.nvrtcCompileProgram prog options))

/-- The compiler call `nvrtcGetProgramLogSize(prog, &logSize)`. -/
def nvrtcGetProgramLogSize (env : Env) (prog : nvrtcProgram) (w : World) : Option Nat × World :=
  (env.nvrtcGetProgramLogSize w prog, w.emit (.nvrtcGetProgramLogSize prog))

/-- The compiler call `nvrtcGetPTXSize(prog, &ptxSize)`. -/
def nvrtcGetPTXSize (env : Env) (prog : nvrtcProgram) (w : World) : Option Nat × World :=
  (env.nvrtcGetPTXSize w prog, w.emit (.nvrtcGetPTXSize prog))

/-- The compiler call `nvrtcGetProgramLog(prog, buffer)`. -/
def nvrtcGetProgramLog (env : Env) (prog : nvrtcProgram) (w : World) : Option String × World :=
  (env.nvrtcGetProgramLog w prog, w.emit (.nvrtcGetProgramLog prog))

/-- The compiler call `nvrtcGetPTX(prog, buffer)`. -/
def nvrtcGetPTX (env : Env) (prog : nvrtcProgram) (w : World) : Option String × World :=
  (env.nvrtcGetPTX w prog, w.emit (.nvrtcGetPTX prog))

/-- The compiler call `nvrtcDestroyProgram(&prog)`: a live program is released. -/
def nvrtcDestroyProgram (prog : nvrtcProgram) (w : World) : World :=
  { w.emit (.nvrtcDestroyProgram prog) with programs := w.programs.erase prog }

/-- A buffer after a callee wrote `written` at its start: writing beyond the end of
the buffer is undefined behaviour. -/
def writeBuffer (buffer written : String) : Except Failure String :=
  if written.length ≤ buffer.length then
    .ok ⟨written.data ++ buffer.data.drop written.length⟩
  else .error .undefinedBehaviour

/-- The conversion of an `int` argument to a parameter of type `unsigned int`: the
value modulo 2^32. -/
def toUnsigned (v : Int) : Nat := (v % 4294967296).toNat

/-- The element `v[i]` of a `std::vector<int>`: `operator[]` checks no bound, and past
the end of the vector the read yields what the environment has there. -/
def vectorAt (env : Env) (v : List Int) (i : Nat) : Int :=
  match v[i]? with
  | some x => x
  | none => env.pastEnd v i

/-- The conversion `cast<int>()` of a Python object: a Python integer in the range
of `int`. -/
def PyObj.cast_int : PyObj → Except Failure Int
  | .int v => if -2147483648 ≤ v ∧ v ≤ 2147483647 then .ok v else .error .castError
  | .other => .error .castError

/-- The conversion `std::to_string` of an `int`: decimal digits, with a leading minus
sign for a negative number. -/
def to_string (n : Int) : String := Int.repr n

/-! ## `MemboundTVM` (membound_TVM.cc) -/

/-- The class `TVMRecordObj`, with the field `time` of its base `PerfRecordObj`. -/
structure TVMRecordObj where
  time : Nat
  logSize : Nat
  ptxSize : Nat
  log : String
  ptx : String
  invokeParams : List Int
  kernelName : String
  deriving DecidableEq, Repr

/-- A performance record: a plain `PerfRecordObj` or a `TVMRecordObj`. -/
inductive PerfRecordObj where
  | base (time : Nat)
  | tvm (r : TVMRecordObj)
  deriving DecidableEq, Repr

/-- The devices a runtime context can belong to. -/
inductive Device where
  | CPU | CUDA
  deriving DecidableEq, Repr

/-- A runtime context; only a context of the CUDA device is a `CudaRuntimeObj`. -/
structure RuntimeObj where
  device : Device
  deriving DecidableEq, Repr

/-- A MemBound operator: its guid, its (non-null) input tensors and output tensor,
and its fused expression. -/
structure MemBoundObj where
  guid : Int
  inputs : List TensorObj
  output : TensorObj
  nnetExpr : Expr
  deriving DecidableEq, Repr

namespace MemboundTVM

/-- The method `getVarName`. -/
def getVarName (t : TensorObj) : String := "var_" ++ to_string t.guid

/-- The loop `for (int i = 0; i < 6; ++i) invokeParams.push_back(temp[i].cast<int>())`
with `n` rounds left at index `i`: indexing a Python list out of range raises a
Python exception. -/
def castLoop (temp : List PyObj) : Nat → Nat → List Int → Except Failure (List Int)
  | 0, _, invokeParams => .ok invokeParams
  | n + 1, i, invokeParams =>
    match temp[i]? with
    | none => .error (.pythonError false)
    | some o =>
      match o.cast_int with
      | .error e => .error e
      | .ok v => castLoop temp n (i + 1) (invokeParams ++ [v])

/-- The text `getAnsorCode` writes to `cerr` on an import error. -/
def importErrorHint : String :=
  "Import Error. Don\x27t forget to set environment " ++
    "variable PYTHONPATH to contain " ++ "<repo-root>/python"

/-- The method `getAnsorCode`.  Starting the interpreter, importing `cpp_plugin` and
calling `gen_ansor_op` are the one call to the synthesizer; a Python exception is
rethrown, after a hint on `cerr` when it is an import error. -/
def getAnsorCode (env : Env) (inDims : List (List Int)) (inDTypes : List String)
    (outDims : List Int) (outDType : String) (lambda : String) (funcName : String)
    (inputNames : List String) (outputName : String) (w : World) :
    Except Failure (String × List Int) × World :=
  let w1 := w.emit (.gen_ansor_op inDims inDTypes outDims outDType lambda funcName inputNames
    outputName)
  match env.gen_ansor_op w inDims inDTypes outDims outDType lambda funcName inputNames
      outputName with
  | .raised importError =>
    if importError then
      (.error (.pythonError true), w1.emit (.cerr importErrorHint))
    else (.error (.pythonError false), w1)
  | .returned code0 code3 =>
    let funcCode := code0
    let temp := code3
    match castLoop temp 6 0 [] with
    | .error e => (.error e, w1)
    | .ok invokeParams => (.ok (funcCode, invokeParams), w1)

/-- The method `compute(op, record, context)` (lines 26-57): the execution with a
record.  A record that is not a `TVMRecordObj` makes the pointer cast null, and its
first use is undefined behaviour; the launch reads `invokeParams[0]` to
`invokeParams[5]` without a check of the length and passes each `int` as an
`unsigned int`; the result of `cuLaunchKernel` is not looked at. -/
def compute (env : Env) (op : MemBoundObj) (record : PerfRecordObj) (_context : RuntimeObj)
    (w0 : World) : Except Failure Unit × World :=
  match record with
  | .base _ => (.error .undefinedBehaviour, w0)
  | .tvm tvmRecord =>
  -- prepare for evaluation
  match cuModuleLoadDataEx env tvmRecord.ptx w0 with
  | ((r1, module), w1) =>
  match checkCUresult r1 with
  | .error e => (.error e, w1)
  | .ok _ =>
  match cuModuleGetFunction env module tvmRecord.kernelName w1 with
  | ((r2, kernel), w2) =>
  match checkCUresult r2 with
  | .error e => (.error e, w2)
  | .ok _ =>
  let args := op.inputs.foldl (fun args t => args ++ [t.rawDataPtr]) []
  let args := args ++ [op.output.rawDataPtr]
  let argsPtr := List.range args.length
  let invokeParams := tvmRecord.invokeParams
  -- begin evaluation
  match cuLaunchKernel env kernel
      (toUnsigned (vectorAt env invokeParams 0)) (toUnsigned (vectorAt env invokeParams 1))
      (toUnsigned (vectorAt env invokeParams 2)) (toUnsigned (vectorAt env invokeParams 3))
      (toUnsigned (vectorAt env invokeParams 4)) (toUnsigned (vectorAt env invokeParams 5))
      0 (argsPtr.filterMap (args[·]?)) w2 with
  | (_, w3) =>
  -- free module
  match cuModuleUnload env module w3 with
  | (r3, w4) =>
  match checkCUresult r3 with
  | .error e => (.error e, w4)
  | .ok _ => (.ok (), w4)

/-- The method `compute(op, context)` (lines 59-62): the execution without a record. -/
def computeWithoutRecord (_env : Env) (_op : MemBoundObj) (_context : RuntimeObj)
    (w0 : World) : Except Failure Unit × World :=
  match IT_ASSERT false "A TVM record is required for membound kernel." with
  | .error e => (.error e, w0)
  | .ok _ => (.ok (), w0)

/-- The method `CudaRuntimeObj::sync` on the context of `tune`, which is null when the
context is not a CUDA one. -/
def sync (context : RuntimeObj) (w : World) : Except Failure Unit × World :=
  match context.device with
  | .CUDA => (.ok (), w.emit .sync)
  | .CPU => (.error .undefinedBehaviour, w)

/-- Modelled from the spec: `timeit(func, sync)` (its definition is not part of the
sources at hand) runs the measured launch once, then the synchronization barrier, and
only then stops the measurement. -/
def timeit (env : Env) (func : World → Except Failure Unit × World)
    (sync : World → Except Failure Unit × World) (w : World) : Except Failure Nat × World :=
  match func w with
  | (.error e, w1) => (.error e, w1)
  | (.ok _, w1) =>
    match sync w1 with
    | (.error e, w2) => (.error e, w2)
    | (.ok _, w2) => (.ok (env.elapsed w2), w2)

/-- The method `tune`.  None of the results of the compiler calls is looked at; a
program handle or a size that a failed call did not write is read uninitialised, which
is undefined behaviour at the first read; the launch passes each `int` of
`invokeParams` as an `unsigned int`, and its result is not looked at. -/
def tune (env : Env) (op : MemBoundObj) (context : RuntimeObj) (w0 : World) :
    Except Failure PerfRecordObj × World :=
  -- invoke Ansor to tune a membound kernel
  let func := "mem_bound_" ++ to_string op.guid
  let kernelName := func ++ "_kernel0"
  let visitor := env.dispatch op.nnetExpr
  let stmts := visitor.stmts
  let inShapes := visitor.inputShapes
  let outShape := visitor.outputShape
  let inputs := op.inputs.foldl (fun inputs t => inputs ++ [getVarName t]) []
  let output := getVarName op.output
  match getAnsorCode env inShapes (List.replicate inShapes.length "float32") outShape
      "float32" stmts func inputs output w0 with
  | (.error e, w1) => (.error e, w1)
  | (.ok res, w1) =>
  -- compile the kernel
  let funcCode := res.1
  let invokeParams := res.2
  let fileName := func ++ ".cu"
  match nvrtcCreateProgram env funcCode fileName w1 with
  | ((_, none), w2) => (.error .undefinedBehaviour, w2)
  | ((_, some prog), w2) =>
  match nvrtcCompileProgram env prog ["--gpu-architecture=compute_80", "--fmad=false"] w2 with
  | (_, w3) =>
  -- copy ptx and log to ret
  match nvrtcGetProgramLogSize env prog w3 with
  | (logSize, w4) =>
  match nvrtcGetPTXSize env prog w4 with
  | (ptxSize, w5) =>
  match logSize, ptxSize with
  | none, _ => (.error .undefinedBehaviour, w5)
  | some _, none => (.error .undefinedBehaviour, w5)
  | some logSize, some ptxSize =>
  match nvrtcGetProgramLog env prog w5 with
  | (logWritten, w6) =>
  match writeBuffer (String.mk (List.replicate logSize ' ')) (logWritten.getD "") with
  | .error e => (.error e, w6)
  | .ok log =>
  match nvrtcGetPTX env prog w6 with
  | (ptxWritten, w7) =>
  match writeBuffer (String.mk (List.replicate ptxSize ' ')) (ptxWritten.getD "") with
  | .error e => (.error e, w7)
  | .ok ptx =>
  -- prepare for evaluation
  match cuModuleLoadDataEx env ptx w7 with
  | ((r1, module), w8) =>
  match checkCUresult r1 with
  | .error e => (.error e, w8)
  | .ok _ =>
  match cuModuleGetFunction env module kernelName w8 with
  | ((r2, kernel), w9) =>
  match checkCUresult r2 with
  | .error e => (.error e, w9)
  | .ok _ =>
  let args := op.inputs.foldl (fun args t => args ++ [t.rawDataPtr]) []
  let args := args ++ [op.output.rawDataPtr]
  let argsPtr := List.range args.length
  -- Evaluate the kernel
  match timeit env
      (fun w =>
        match cuLaunchKernel env kernel
            (toUnsigned (vectorAt env invokeParams 0)) (toUnsigned (vectorAt env invokeParams 1))
            (toUnsigned (vectorAt env invokeParams 2)) (toUnsigned (vectorAt env invokeParams 3))
            (toUnsigned (vectorAt env invokeParams 4)) (toUnsigned (vectorAt env invokeParams 5))
            0 (argsPtr.filterMap (args[·]?)) w with
        | (_, w10) => (.ok (), w10))
      (fun w => sync context w) w9 with
  | (.error e, w11) => (.error e, w11)
  | (.ok time, w11) =>
  -- free module
  match cuModuleUnload env module w11 with
  | (r3, w12) =>
  match checkCUresult r3 with
  | .error e => (.error e, w12)
  | .ok _ =>
  let w13 := nvrtcDestroyProgram prog w12
  (.ok (.tvm { time := time, logSize := logSize, ptxSize := ptxSize, log := log, ptx := ptx,
               invokeParams := invokeParams, kernelName := kernelName }), w13)

end MemboundTVM

/-! ## Vocabulary of the statements -/

/-- The external calls made from the world `w0` up to the world `w1`. -/
def callsOf (w0 w1 : World) : List Call := w1.trace.drop w0.trace.length

/-- The parameter values of a kernel launch. -/
def Call.launchParams : Call → Option (List Nat)
  | .cuLaunchKernel _ _ _ _ _ _ _ _ kernelParams => some kernelParams
  | _ => none

/-- The input variable names and the output variable name of a synthesizer request. -/
def Call.synthNames : Call → Option (List String × String)
  | .gen_ansor_op _ _ _ _ _ _ inputNames outputName => some (inputNames, outputName)
  | _ => none

namespace MemboundTVM

/-- The value of `func` in `tune` for an operator of the given guid (line 76). -/
def funcOf (guid : Int) : String := "mem_bound_" ++ to_string guid

/-- The value of `kernelName` in `tune` (line 77). -/
def kernelNameOf (guid : Int) : String := funcOf guid ++ "_kernel0"

/-- The value of `fileName` in `tune` (line 96). -/
def fileNameOf (guid : Int) : String := funcOf guid ++ ".cu"

/-- The request `tune` hands to the synthesizer for `op`. -/
def requestOf (env : Env) (op : MemBoundObj) : Call :=
  .gen_ansor_op (env.dispatch op.nnetExpr).inputShapes
    (List.replicate (env.dispatch op.nnetExpr).inputShapes.length "float32")
    (env.dispatch op.nnetExpr).outputShape "float32" (env.dispatch op.nnetExpr).stmts
    (funcOf op.guid) (op.inputs.map getVarName) (getVarName op.output)

/-- The synthesizer's answer to the request of `tune` for `op` in the world `w`. -/
def answerOf (env : Env) (op : MemBoundObj) (w : World) : PyResult :=
  env.gen_ansor_op w (env.dispatch op.nnetExpr).inputShapes
    (List.replicate (env.dispatch op.nnetExpr).inputShapes.length "float32")
    (env.dispatch op.nnetExpr).outputShape "float32" (env.dispatch op.nnetExpr).stmts
    (funcOf op.guid) (op.inputs.map getVarName) (getVarName op.output)

/-- The device addresses of the inputs of `op` in order, then that of its output. -/
def addressesOf (op : MemBoundObj) : List Nat :=
  op.inputs.map (·.rawDataPtr) ++ [op.output.rawDataPtr]

/-- The launch parameter number `i` read from the stored configuration `v`: the entry
`v[i]` as the conversion to `unsigned int` passes it. -/
def launchDim (env : Env) (v : List Int) (i : Nat) : Nat := toUnsigned (vectorAt env v i)

/-- The four driver calls of an execution with the record `r` that loads its module
under the handle `m`: load of the stored binary, resolution of the stored entry-point
name, launch with the stored configuration and the current addresses, unload. -/
def recordCalls (env : Env) (op : MemBoundObj) (r : TVMRecordObj) (m : CUmodule) : List Call :=
  [.cuModuleLoadDataEx r.ptx,
   .cuModuleGetFunction m r.kernelName,
   .cuLaunchKernel { module := m, name := r.kernelName }
      (launchDim env r.invokeParams 0) (launchDim env r.invokeParams 1)
      (launchDim env r.invokeParams 2) (launchDim env r.invokeParams 3)
      (launchDim env r.invokeParams 4) (launchDim env r.invokeParams 5)
      0 (addressesOf op),
   .cuModuleUnload m]

/-- The world after the load call of an execution with the record `r`. -/
def afterLoad (env : Env) (r : TVMRecordObj) (w0 : World) : World :=
  (cuModuleLoadDataEx env r.ptx w0).2

/-- The world after the launch of an execution with the record `r` whose load and
resolution succeeded. -/
def afterLaunch (env : Env) (op : MemBoundObj) (r : TVMRecordObj) (w0 : World) : World :=
  ((afterLoad env r w0).emit (.cuModuleGetFunction w0.nextHandle r.kernelName)).emit
    (.cuLaunchKernel { module := w0.nextHandle, name := r.kernelName }
      (launchDim env r.invokeParams 0) (launchDim env r.invokeParams 1)
      (launchDim env r.invokeParams 2) (launchDim env r.invokeParams 3)
      (launchDim env r.invokeParams 4) (launchDim env r.invokeParams 5)
      0 (addressesOf op))

/-- The thirteen external calls of a run of `tune` that returns the record `r`, its
program having the handle `prog` and its module the handle `m`. -/
def tuneCalls (env : Env) (op : MemBoundObj) (code : String) (r : TVMRecordObj)
    (prog : nvrtcProgram) (m : CUmodule) : List Call :=
  [requestOf env op,
   .nvrtcCreateProgram code (fileNameOf op.guid),
   .nvrtcCompileProgram prog ["--gpu-architecture=compute_80", "--fmad=false"],
   .nvrtcGetProgramLogSize prog,
   .nvrtcGetPTXSize prog,
   .nvrtcGetProgramLog prog,
   .nvrtcGetPTX prog,
   .cuModuleLoadDataEx r.ptx,
   .cuModuleGetFunction m r.kernelName,
   .cuLaunchKernel { module := m, name := r.kernelName }
      (launchDim env r.invokeParams 0) (launchDim env r.invokeParams 1)
      (launchDim env r.invokeParams 2) (launchDim env r.invokeParams 3)
      (launchDim env r.invokeParams 4) (launchDim env r.invokeParams 5)
      0 (addressesOf op),
   .sync,
   .cuModuleUnload m,
   .nvrtcDestroyProgram prog]

/-- What holds of every external call `tune` makes for `op`: the names it passes are
the ones derived from the guids, and a launch gets the marshaled addresses. -/
def TuneCall (op : MemBoundObj) : Call → Prop
  | .gen_ansor_op _ _ _ _ _ funcName inputNames outputName =>
    funcName = funcOf op.guid ∧ inputNames = op.inputs.map getVarName ∧
      outputName = getVarName op.output
  | .nvrtcCreateProgram _ name => name = fileNameOf op.guid
  | .cuModuleGetFunction _ name => name = kernelNameOf op.guid
  | .cuLaunchKernel f _ _ _ _ _ _ _ kernelParams =>
    f.name = kernelNameOf op.guid ∧ kernelParams = addressesOf op
  | _ => True

/-- The device addresses `p` are those of the inputs of `op` in order, followed by that
of its output. -/
def Marshaled (op : MemBoundObj) (p : List Nat) : Prop :=
  p.length = op.inputs.length + 1 ∧
  (∀ i (hi : i < op.inputs.length), p[i]? = some (op.inputs[i]).rawDataPtr) ∧
  p[op.inputs.length]? = some op.output.rawDataPtr

/-- The names `n` are `"var_"` followed by the guid, for the inputs of `op` in order and
for its output. -/
def NamedInOrder (op : MemBoundObj) (n : List String × String) : Prop :=
  n.1.length = op.inputs.length ∧
  (∀ i (hi : i < op.inputs.length), n.1[i]? = some ("var_" ++ to_string (op.inputs[i]).guid)) ∧
  n.2 = "var_" ++ to_string op.output.guid

/-- The failures `tune` can end in: a Python or cast failure of the synthesizer step,
undefined behaviour, or a driver result other than success caught by `checkCUresult`. -/
def FailureKind (e : Failure) : Prop :=
  e = .pythonError true ∨ e = .pythonError false ∨ e = .castError ∨ e = .undefinedBehaviour ∨
    ∃ c, c ≠ CUDA_SUCCESS ∧ e = .cudaError c

/-- The calls of a run of `tune` begin with the request to the synthesizer, and a
compile call among them is followed by the two size queries on the same program, and
by a load of a module unless the run ended in undefined behaviour. -/
def GoesOn (env : Env) (op : MemBoundObj) (calls : List Call)
    (res : Except Failure PerfRecordObj) : Prop :=
  calls.head? = some (requestOf env op) ∧
  ∀ prog opts, Call.nvrtcCompileProgram prog opts ∈ calls →
    Call.nvrtcGetProgramLogSize prog ∈ calls ∧ Call.nvrtcGetPTXSize prog ∈ calls ∧
    ((∃ image, Call.cuModuleLoadDataEx image ∈ calls) ∨ res = .error .undefinedBehaviour)

/-- What a run of `tune` from `w0` that ends with `res` in the world `wf` satisfies. -/
def TuneOutcome (env : Env) (op : MemBoundObj) (w0 : World)
    (res : Except Failure PerfRecordObj) (wf : World) : Prop :=
  (∀ c ∈ callsOf w0 wf, TuneCall op c) ∧
  (∀ e, res = .error e → FailureKind e) ∧
  GoesOn env op (callsOf w0 wf) res ∧
  (∀ rec, res = .ok rec → ∃ code temp r, answerOf env op w0 = .returned code temp ∧
    rec = .tvm r ∧ r.kernelName = kernelNameOf op.guid ∧ r.invokeParams.length = 6 ∧
    r.invokeParams.map PyObj.int = temp.take 6 ∧
    wf.trace = w0.trace ++ tuneCalls env op code r w0.nextHandle (w0.nextHandle + 1) ∧
    wf.modules = w0.modules ∧ wf.programs = w0.programs)

end MemboundTVM

/-- The value of a list of decimal digit characters. -/
def decodeNat (l : List Char) : Nat := l.foldl (fun a c => 10 * a + (c.toNat - 48)) 0

/-! ## Sample inputs -/

/-- An environment in which every external call succeeds. -/
def sampleEnv : Env where
  dispatch := fun _ => { stmts := "lambda", inputShapes := [[4, 4], [4, 4]], outputShape := [4, 4] }
  gen_ansor_op := fun _ _ _ _ _ _ _ _ _ =>
    .returned "code" [.int 1, .int 1, .int 1, .int 16, .int 1, .int 1]
  nvrtcCreateProgram := fun _ _ _ => 0
  nvrtcCompileProgram := fun _ _ _ => 0
  nvrtcGetProgramLogSize := fun _ _ => some 1
  nvrtcGetPTXSize := fun _ _ => some 3
  nvrtcGetProgramLog := fun _ _ => some "."
  nvrtcGetPTX := fun _ _ => some "ptx"
  cuModuleLoadDataEx := fun _ _ => 0
  cuModuleGetFunction := fun _ _ _ => 0
  cuLaunchKernel := fun _ _ _ _ _ _ _ _ _ _ => 0
  cuModuleUnload := fun _ _ => 0
  elapsed := fun _ => 5
  pastEnd := fun _ _ => 0

/-- The driver refuses to load any image (`CUDA_ERROR_INVALID_IMAGE`). -/
def envLoadFails : Env := { sampleEnv with cuModuleLoadDataEx := fun _ _ => 200 }

/-- The driver finds no entry point (`CUDA_ERROR_NOT_FOUND`). -/
def envResolveFails : Env := { sampleEnv with cuModuleGetFunction := fun _ _ _ => 500 }

/-- Every launch reports an error (`CUDA_ERROR_INVALID_VALUE`). -/
def envLaunchFails : Env :=
  { sampleEnv with cuLaunchKernel := fun _ _ _ _ _ _ _ _ _ _ => 1 }

/-- The compiler rejects the source (`NVRTC_ERROR_COMPILATION`), reports a log and an
empty binary, and the driver refuses to load that binary. -/
def envCompileRejects : Env :=
  { sampleEnv with
    nvrtcCompileProgram := fun _ _ _ => 6
    nvrtcGetProgramLogSize := fun _ _ => some 5
    nvrtcGetProgramLog := fun _ _ => some "error"
    nvrtcGetPTXSize := fun _ _ => some 0
    nvrtcGetPTX := fun _ _ => some ""
    cuModuleLoadDataEx := fun _ _ => 200 }

/-- The compiler rejects the source (`NVRTC_ERROR_COMPILATION`), and every other call
answers as in `sampleEnv`. -/
def envCompileRejectsOnly : Env := { sampleEnv with nvrtcCompileProgram := fun _ _ _ => 6 }

/-- The synthesizer returns a launch configuration of five entries. -/
def envShortConfig : Env :=
  { sampleEnv with
    gen_ansor_op := fun _ _ _ _ _ _ _ _ _ =>
      .returned "code" [.int 1, .int 1, .int 1, .int 16, .int 1] }

def sampleA : TensorObj := { guid := 1, dims := [4, 4], dtype := .Float32, rawDataPtr := 4096 }
def sampleB : TensorObj := { guid := 2, dims := [4, 4], dtype := .Float32, rawDataPtr := 8192 }
def sampleC : TensorObj := { guid := 3, dims := [4, 4], dtype := .Float32, rawDataPtr := 12288 }

/-- A fused element-wise operator over two 4x4 inputs. -/
def sampleOp : MemBoundObj :=
  { guid := 7, inputs := [sampleA, sampleB], output := sampleC, nnetExpr := 0 }

/-- The record `tune` returns for `sampleOp` in `sampleEnv`. -/
def sampleRecord : TVMRecordObj :=
  { time := 5, logSize := 1, ptxSize := 3, log := ".", ptx := "ptx",
    invokeParams := [1, 1, 1, 16, 1, 1], kernelName := "mem_bound_7_kernel0" }

def sampleWorld : World := { trace := [], modules := [], programs := [], nextHandle := 0 }

def cudaContext : RuntimeObj := { device := .CUDA }

/-- Operator rules that accept every construction and infer a 4x4 float tensor. -/
def sampleRules : OpRules := { infer := fun _ _ _ => some ([4, 4], .Float32) }

def sampleHandler : GraphHandlerObj := { g := { tensors := [], ops := [], guidCnt := 0 } }

/-! ## Lemmas on the primitives -/

open MemboundTVM

theorem foldl_push_eq_map {α β : Type} (f : α → β) (l : List α) (acc : List β) :
    l.foldl (fun acc t => acc ++ [f t]) acc = acc ++ l.map f := by
  induction l generalizing acc with
  | nil => simp
  | cons x xs ih => simp [ih]

theorem range_filterMap_getElem {α : Type} (l : List α) :
    (List.range l.length).filterMap (l[·]?) = l := by
  induction l using List.reverseRecOn with
  | nil => simp
  | append_singleton xs x ih =>
    rw [List.length_append, List.length_singleton, List.range_succ, List.filterMap_append]
    have h1 : List.filterMap (fun i => (xs ++ [x])[i]?) (List.range xs.length) =
        List.filterMap (fun i => xs[i]?) (List.range xs.length) := by
      apply List.filterMap_congr
      intro i hi
      rw [List.mem_range] at hi
      simp [List.getElem?_append_left hi]
    rw [h1, ih]
    simp

theorem checkCUresult_ok (r : CUresult) (u : Unit) : checkCUresult r = .ok u ↔ r = CUDA_SUCCESS := by
  unfold checkCUresult; split <;> simp_all

theorem checkCUresult_error (r : CUresult) (e : Failure) :
    checkCUresult r = .error e ↔ r ≠ CUDA_SUCCESS ∧ e = .cudaError r := by
  unfold checkCUresult; split <;> simp_all [eq_comm]

theorem load_trace (env : Env) (i : String) (w : World) :
    (cuModuleLoadDataEx env i w).2.trace = w.trace ++ [.cuModuleLoadDataEx i] := by
  unfold cuModuleLoadDataEx; simp only; split <;> simp [World.emit]

theorem load_programs (env : Env) (i : String) (w : World) :
    (cuModuleLoadDataEx env i w).2.programs = w.programs := by
  unfold cuModuleLoadDataEx; simp only; split <;> simp [World.emit]

theorem load_ok (env : Env) (i : String) (w : World)
    (h : (cuModuleLoadDataEx env i w).1.1 = CUDA_SUCCESS) :
    (cuModuleLoadDataEx env i w).1.2 = w.nextHandle ∧
    (cuModuleLoadDataEx env i w).2.modules = w.nextHandle :: w.modules := by
  unfold cuModuleLoadDataEx at h ⊢; simp only at h ⊢; split <;> simp_all [World.emit]

theorem getFunction_world (env : Env) (m : CUmodule) (n : String) (w : World) :
    (cuModuleGetFunction env m n w).2 = w.emit (.cuModuleGetFunction m n) := rfl

theorem getFunction_fn (env : Env) (m : CUmodule) (n : String) (w : World) :
    (cuModuleGetFunction env m n w).1.2 = ⟨m, n⟩ := rfl

theorem launch_world (env : Env) (f : CUfunction) (a b c d e g : Nat) (s : Nat) (p : List Nat)
    (w : World) :
    (cuLaunchKernel env f a b c d e g s p w).2 = w.emit (.cuLaunchKernel f a b c d e g s p) := rfl

theorem unload_trace (env : Env) (m : CUmodule) (w : World) :
    (cuModuleUnload env m w).2.trace = w.trace ++ [.cuModuleUnload m] := by
  unfold cuModuleUnload; simp only; split <;> simp [World.emit]

theorem unload_programs (env : Env) (m : CUmodule) (w : World) :
    (cuModuleUnload env m w).2.programs = w.programs := by
  unfold cuModuleUnload; simp only; split <;> simp [World.emit]

theorem unload_ok (env : Env) (m : CUmodule) (w : World)
    (h : (cuModuleUnload env m w).1 = CUDA_SUCCESS) :
    (cuModuleUnload env m w).2.modules = w.modules.erase m := by
  unfold cuModuleUnload at h ⊢; simp only at h ⊢; split <;> simp_all [World.emit]

@[simp]

theorem emit_trace (w : World) (c : Call) : (w.emit c).trace = w.trace ++ [c] := rfl

@[simp]
theorem emit_modules (w : World) (c : Call) : (w.emit c).modules = w.modules := rfl

@[simp]
theorem emit_programs (w : World) (c : Call) : (w.emit c).programs = w.programs := rfl

@[simp]
theorem emit_nextHandle (w : World) (c : Call) : (w.emit c).nextHandle = w.nextHandle := rfl

theorem create_some (env : Env) (s n : String) (w w2 : World) (r : nvrtcResult) (p : nvrtcProgram)
    (h : nvrtcCreateProgram env s n w = ((r, some p), w2)) :
    p = w.nextHandle ∧ w2.trace = w.trace ++ [.nvrtcCreateProgram s n] ∧
    w2.programs = w.nextHandle :: w.programs ∧ w2.modules = w.modules ∧
    w2.nextHandle = w.nextHandle + 1 := by
  unfold nvrtcCreateProgram at h
  simp only at h
  split at h
  · simp only [Prod.mk.injEq, Option.some.injEq] at h
    obtain ⟨⟨_, rfl⟩, rfl⟩ := h
    simp
  · simp at h

theorem cast_int_ok (o : PyObj) (v : Int) (h : o.cast_int = .ok v) : o = .int v := by
  cases o with
  | int x =>
    simp only [PyObj.cast_int] at h
    split at h
    · simp only [Except.ok.injEq] at h; rw [h]
    · simp at h
  | other => simp [PyObj.cast_int] at h

theorem castLoop_ok (temp : List PyObj) (n : Nat) : ∀ (i : Nat) (acc r : List Int),
    castLoop temp n i acc = .ok r →
    ∃ vals : List Int, r = acc ++ vals ∧ vals.length = n ∧
      vals.map PyObj.int = (temp.drop i).take n := by
  induction n with
  | zero =>
    intro i acc r h
    simp only [castLoop, Except.ok.injEq] at h
    exact ⟨[], by simp [h]⟩
  | succ k ih =>
    intro i acc r h
    simp only [castLoop] at h
    split at h
    · simp at h
    · rename_i o ho
      split at h
      · simp at h
      · rename_i v hv
        obtain ⟨vals, h1, h2, h3⟩ := ih _ _ _ h
        have ho2 := cast_int_ok o v hv
        have hi : i < temp.length := by
          rcases List.getElem?_eq_some_iff.mp ho with ⟨hi, _⟩
          exact hi
        refine ⟨v :: vals, by simp [h1], by simp [h2], ?_⟩
        rw [List.drop_eq_getElem_cons hi, List.take_succ_cons, List.map_cons, h3]
        have : temp[i] = o := by
          rcases List.getElem?_eq_some_iff.mp ho with ⟨_, h⟩
          exact h
        rw [this, ho2]

theorem castLoop_six (temp : List PyObj) (r : List Int) (h : castLoop temp 6 0 [] = .ok r) :
    ∃ p0 p1 p2 p3 p4 p5, r = [p0, p1, p2, p3, p4, p5] ∧
      temp.take 6 = [.int p0, .int p1, .int p2, .int p3, .int p4, .int p5] := by
  obtain ⟨vals, h1, h2, h3⟩ := castLoop_ok temp 6 0 [] r h
  rcases vals with _ | ⟨p0, _ | ⟨p1, _ | ⟨p2, _ | ⟨p3, _ | ⟨p4, _ | ⟨p5, _ | ⟨p6, t⟩⟩⟩⟩⟩⟩⟩ <;>
    simp at h2
  exact ⟨p0, p1, p2, p3, p4, p5, by simpa using h1, by simpa using h3.symm⟩


theorem digitChar_toNat (k : Nat) (h : k < 10) : (Nat.digitChar k).toNat - 48 = k := by
  interval_cases k <;> rfl

theorem digitChar_ne_minus (k : Nat) (h : k < 10) : Nat.digitChar k ≠ '-' := by
  interval_cases k <;> decide

theorem toDigitsCore_acc (fuel : Nat) : ∀ (n : Nat) (ds : List Char),
    Nat.toDigitsCore 10 fuel n ds = Nat.toDigitsCore 10 fuel n [] ++ ds := by
  induction fuel with
  | zero => intro n ds; simp [Nat.toDigitsCore]
  | succ f ih =>
    intro n ds
    simp only [Nat.toDigitsCore]
    split
    · simp
    · rw [ih (n / 10) (Nat.digitChar (n % 10) :: ds), ih (n / 10) [Nat.digitChar (n % 10)]]
      simp

theorem decodeNat_toDigitsCore (fuel : Nat) : ∀ n : Nat, n < fuel →
    decodeNat (Nat.toDigitsCore 10 fuel n []) = n := by
  induction fuel with
  | zero => intro n h; omega
  | succ f ih =>
    intro n h
    simp only [Nat.toDigitsCore]
    split
    · rename_i h0
      have : n < 10 := by omega
      simp [decodeNat, Nat.mod_eq_of_lt this, digitChar_toNat n this]
    · rename_i h0
      rw [toDigitsCore_acc]
      have h1 : n / 10 < f := by omega
      have := ih (n / 10) h1
      unfold decodeNat at this ⊢
      rw [List.foldl_append, this]
      simp [digitChar_toNat (n % 10) (Nat.mod_lt _ (by decide))]
      omega

theorem decodeNat_repr (n : Nat) : decodeNat (Nat.repr n).data = n := by
  simp [Nat.repr, Nat.toDigits, List.asString, decodeNat_toDigitsCore]

theorem toDigitsCore_no_minus (fuel : Nat) : ∀ (n : Nat) (ds : List Char),
    '-' ∈ Nat.toDigitsCore 10 fuel n ds → '-' ∈ ds := by
  induction fuel with
  | zero => intro n ds h; simpa [Nat.toDigitsCore] using h
  | succ f ih =>
    intro n ds h
    simp only [Nat.toDigitsCore] at h
    have hd : '-' ≠ Nat.digitChar (n % 10) :=
      fun e => digitChar_ne_minus (n % 10) (Nat.mod_lt _ (by decide)) e.symm
    split at h
    · simpa [hd] using h
    · have := ih _ _ h
      simpa [hd] using this

theorem repr_no_minus (n : Nat) : '-' ∉ (Nat.repr n).data := by
  intro h
  have := toDigitsCore_no_minus (n + 1) n [] (by simpa [Nat.repr, Nat.toDigits, List.asString] using h)
  simp at this

theorem nat_repr_injective (a b : Nat) (h : Nat.repr a = Nat.repr b) : a = b := by
  have := congrArg (fun s => decodeNat s.data) h
  simpa [decodeNat_repr] using this

theorem string_append_left_cancel (p a b : String) (h : p ++ a = p ++ b) : a = b := by
  have := congrArg String.data h
  simp only [String.data_append] at this
  exact String.ext (List.append_cancel_left this)

theorem string_append_right_cancel (a b q : String) (h : a ++ q = b ++ q) : a = b := by
  have := congrArg String.data h
  simp only [String.data_append] at this
  exact String.ext (List.append_cancel_right this)

theorem to_string_injective (a b : Int) (h : to_string a = to_string b) : a = b := by
  unfold to_string at h
  cases a with
  | ofNat m =>
    cases b with
    | ofNat k => simp only [Int.repr] at h; rw [nat_repr_injective m k h]
    | negSucc k =>
      exfalso
      simp only [Int.repr] at h
      apply repr_no_minus m
      rw [h]; simp [String.data_append]
  | negSucc m =>
    cases b with
    | ofNat k =>
      exfalso
      simp only [Int.repr] at h
      apply repr_no_minus k
      rw [← h]; simp [String.data_append]
    | negSucc k =>
      simp only [Int.repr] at h
      have := nat_repr_injective _ _ (string_append_left_cancel _ _ _ h)
      simp at this
      rw [this]

theorem castLoop_error (temp : List PyObj) (n : Nat) : ∀ (i : Nat) (acc : List Int) (e : Failure),
    castLoop temp n i acc = .error e → e = .pythonError false ∨ e = .castError := by
  induction n with
  | zero => intro i acc e h; simp [castLoop] at h
  | succ k ih =>
    intro i acc e h
    simp only [castLoop] at h
    split at h
    · simp only [Except.error.injEq] at h; exact Or.inl h.symm
    · rename_i o ho
      split at h
      · rename_i e2 he
        simp only [Except.error.injEq] at h
        subst h
        right
        cases o with
        | int v =>
          simp only [PyObj.cast_int] at he
          split at he
          · simp at he
          · simp only [Except.error.injEq] at he; exact he.symm
        | other => simp only [PyObj.cast_int, Except.error.injEq] at he; exact he.symm
      · exact ih _ _ _ h

theorem getAnsorCode_ok (env : Env) (a : List (List Int)) (b : List String) (c : List Int)
    (d e f : String) (g : List String) (n : String) (w w1 : World) (res : String × List Int)
    (h : getAnsorCode env a b c d e f g n w = (.ok res, w1)) :
    w1 = w.emit (.gen_ansor_op a b c d e f g n) ∧
    ∃ temp, env.gen_ansor_op w a b c d e f g n = .returned res.1 temp ∧
      castLoop temp 6 0 [] = .ok res.2 := by
  unfold getAnsorCode at h
  simp only at h
  split at h
  · split at h <;> simp at h
  · rename_i code0 code3 hr
    split at h
    · simp at h
    · rename_i ps hps
      simp only [Prod.mk.injEq, Except.ok.injEq] at h
      obtain ⟨rfl, rfl⟩ := h
      exact ⟨rfl, code3, hr, hps⟩

theorem getAnsorCode_error (env : Env) (a : List (List Int)) (b : List String) (c : List Int)
    (d e f : String) (g : List String) (n : String) (w w1 : World) (err : Failure)
    (h : getAnsorCode env a b c d e f g n w = (.error err, w1)) :
    (∃ extra, w1.trace = w.trace ++ .gen_ansor_op a b c d e f g n :: extra ∧
      ∀ x ∈ extra, ∃ t, x = .cerr t) ∧
    w1.modules = w.modules ∧ w1.programs = w.programs ∧
    (err = .pythonError true ∨ err = .pythonError false ∨ err = .castError) := by
  unfold getAnsorCode at h
  simp only at h
  split at h
  · split at h
    · simp only [Prod.mk.injEq, Except.error.injEq] at h
      obtain ⟨rfl, rfl⟩ := h
      exact ⟨⟨[.cerr importErrorHint], by simp, by simp⟩, rfl, rfl, Or.inl rfl⟩
    · simp only [Prod.mk.injEq, Except.error.injEq] at h
      obtain ⟨rfl, rfl⟩ := h
      exact ⟨⟨[], by simp, by simp⟩, rfl, rfl, Or.inr (Or.inl rfl)⟩
  · split at h
    · rename_i e2 he
      simp only [Prod.mk.injEq, Except.error.injEq] at h
      obtain ⟨rfl, rfl⟩ := h
      refine ⟨⟨[], by simp, by simp⟩, rfl, rfl, Or.inr ?_⟩
      exact castLoop_error _ _ _ _ _ he
    · simp at h

theorem create_none (env : Env) (s n : String) (w w2 : World) (r : nvrtcResult)
    (h : nvrtcCreateProgram env s n w = ((r, none), w2)) :
    w2.trace = w.trace ++ [.nvrtcCreateProgram s n] ∧
    w2.programs = w.programs ∧ w2.modules = w.modules := by
  unfold nvrtcCreateProgram at h
  simp only at h
  split at h
  · simp at h
  · simp only [Prod.mk.injEq, and_true] at h
    obtain ⟨_, rfl⟩ := h
    simp

theorem destroy_trace (p : nvrtcProgram) (w : World) :
    (nvrtcDestroyProgram p w).trace = w.trace ++ [.nvrtcDestroyProgram p] := rfl

theorem destroy_modules (p : nvrtcProgram) (w : World) :
    (nvrtcDestroyProgram p w).modules = w.modules := rfl

theorem destroy_programs (p : nvrtcProgram) (w : World) :
    (nvrtcDestroyProgram p w).programs = w.programs.erase p := rfl


theorem load_eq (env : Env) (i : String) (w w1 : World) (r : CUresult) (m : CUmodule)
    (h : cuModuleLoadDataEx env i w = ((r, m), w1)) :
    w1.trace = w.trace ++ [.cuModuleLoadDataEx i] ∧ w1.programs = w.programs ∧
    (r = CUDA_SUCCESS → m = w.nextHandle ∧ w1.modules = w.nextHandle :: w.modules) ∧
    (r ≠ CUDA_SUCCESS → w1.modules = w.modules) ∧ r = env.cuModuleLoadDataEx w i := by
  unfold cuModuleLoadDataEx at h
  simp only at h
  split at h
  all_goals
    simp only [Prod.mk.injEq] at h
    obtain ⟨⟨rfl, rfl⟩, rfl⟩ := h
    simp_all

theorem getFunction_eq (env : Env) (m : CUmodule) (n : String) (w w1 : World) (r : CUresult)
    (k : CUfunction) (h : cuModuleGetFunction env m n w = ((r, k), w1)) :
    w1 = w.emit (.cuModuleGetFunction m n) ∧ k = ⟨m, n⟩ ∧ r = env.cuModuleGetFunction w m n := by
  unfold cuModuleGetFunction at h
  simp only [Prod.mk.injEq] at h
  obtain ⟨⟨rfl, rfl⟩, rfl⟩ := h
  exact ⟨rfl, rfl, rfl⟩

theorem unload_eq (env : Env) (m : CUmodule) (w w1 : World) (r : CUresult)
    (h : cuModuleUnload env m w = (r, w1)) :
    w1.trace = w.trace ++ [.cuModuleUnload m] ∧ w1.programs = w.programs ∧
    (r = CUDA_SUCCESS → w1.modules = w.modules.erase m) ∧
    (r ≠ CUDA_SUCCESS → w1.modules = w.modules) ∧ r = env.cuModuleUnload w m := by
  unfold cuModuleUnload at h
  simp only at h
  split at h
  all_goals
    simp only [Prod.mk.injEq] at h
    obtain ⟨rfl, rfl⟩ := h
    simp_all

theorem compile_eq (env : Env) (p : nvrtcProgram) (o : List String) (w w1 : World)
    (r : nvrtcResult) (h : nvrtcCompileProgram env p o w = (r, w1)) :
    w1 = w.emit (.nvrtcCompileProgram p o) := by
  unfold nvrtcCompileProgram at h
  simp only [Prod.mk.injEq] at h
  exact h.2.symm

theorem logSize_eq (env : Env) (p : nvrtcProgram) (w w1 : World) (r : Option Nat)
    (h : nvrtcGetProgramLogSize env p w = (r, w1)) :
    w1 = w.emit (.nvrtcGetProgramLogSize p) := by
  unfold nvrtcGetProgramLogSize at h
  simp only [Prod.mk.injEq] at h
  exact h.2.symm

theorem ptxSize_eq (env : Env) (p : nvrtcProgram) (w w1 : World) (r : Option Nat)
    (h : nvrtcGetPTXSize env p w = (r, w1)) :
    w1 = w.emit (.nvrtcGetPTXSize p) := by
  unfold nvrtcGetPTXSize at h
  simp only [Prod.mk.injEq] at h
  exact h.2.symm

theorem log_eq (env : Env) (p : nvrtcProgram) (w w1 : World) (r : Option String)
    (h : nvrtcGetProgramLog env p w = (r, w1)) :
    w1 = w.emit (.nvrtcGetProgramLog p) := by
  unfold nvrtcGetProgramLog at h
  simp only [Prod.mk.injEq] at h
  exact h.2.symm

theorem ptx_eq (env : Env) (p : nvrtcProgram) (w w1 : World) (r : Option String)
    (h : nvrtcGetPTX env p w = (r, w1)) :
    w1 = w.emit (.nvrtcGetPTX p) := by
  unfold nvrtcGetPTX at h
  simp only [Prod.mk.injEq] at h
  exact h.2.symm

theorem writeBuffer_error (b s : String) (e : Failure) (h : writeBuffer b s = .error e) :
    e = .undefinedBehaviour := by
  unfold writeBuffer at h
  split at h
  · simp at h
  · simp only [Except.error.injEq] at h; exact h.symm

theorem timeit_eq (env : Env) (ctx : RuntimeObj) (kernel : CUfunction) (p0 p1 p2 p3 p4 p5 : Nat)
    (params : List Nat) (w wf : World) (r : Except Failure Nat)
    (h : MemboundTVM.timeit env
      (fun w =>
        match cuLaunchKernel env kernel p0 p1 p2 p3 p4 p5 0 params w with
        | (_, w10) => (.ok (), w10))
      (fun w => MemboundTVM.sync ctx w) w = (r, wf)) :
    (ctx.device = .CPU ∧ r = .error .undefinedBehaviour ∧
      wf = w.emit (.cuLaunchKernel kernel p0 p1 p2 p3 p4 p5 0 params)) ∨
    (ctx.device = .CUDA ∧ r = .ok (env.elapsed wf) ∧
      wf = (w.emit (.cuLaunchKernel kernel p0 p1 p2 p3 p4 p5 0 params)).emit .sync) := by
  unfold MemboundTVM.timeit MemboundTVM.sync at h
  simp only [cuLaunchKernel] at h
  rcases ctx with ⟨_ | _⟩
  · simp only [Prod.mk.injEq] at h
    obtain ⟨rfl, rfl⟩ := h
    exact Or.inl ⟨rfl, rfl, rfl⟩
  · simp only [Prod.mk.injEq] at h
    obtain ⟨rfl, rfl⟩ := h
    exact Or.inr ⟨rfl, rfl, rfl⟩

theorem afterLoad_trace (env : Env) (r : TVMRecordObj) (w0 : World) :
    (afterLoad env r w0).trace = w0.trace ++ [.cuModuleLoadDataEx r.ptx] :=
  load_trace env r.ptx w0

theorem compute_load_fails (env : Env) (op : MemBoundObj) (r : TVMRecordObj) (ctx : RuntimeObj)
    (w0 : World) (h : env.cuModuleLoadDataEx w0 r.ptx ≠ CUDA_SUCCESS) :
    compute env op (.tvm r) ctx w0 =
      (.error (.cudaError (env.cuModuleLoadDataEx w0 r.ptx)), afterLoad env r w0) := by
  have h1 : (cuModuleLoadDataEx env r.ptx w0).1.1 = env.cuModuleLoadDataEx w0 r.ptx := by
    unfold cuModuleLoadDataEx; simp only; split <;> rfl
  unfold compute
  simp only [h1, checkCUresult, h, if_false, afterLoad]

theorem compute_resolve_fails (env : Env) (op : MemBoundObj) (r : TVMRecordObj)
    (ctx : RuntimeObj) (w0 : World) (h : env.cuModuleLoadDataEx w0 r.ptx = CUDA_SUCCESS)
    (h2 : env.cuModuleGetFunction (afterLoad env r w0) w0.nextHandle r.kernelName ≠
      CUDA_SUCCESS) :
    compute env op (.tvm r) ctx w0 =
      (.error (.cudaError
          (env.cuModuleGetFunction (afterLoad env r w0) w0.nextHandle r.kernelName)),
        (afterLoad env r w0).emit (.cuModuleGetFunction w0.nextHandle r.kernelName)) := by
  have h1 : (cuModuleLoadDataEx env r.ptx w0).1.1 = CUDA_SUCCESS := by
    unfold cuModuleLoadDataEx; simp only; split <;> simp_all
  obtain ⟨hm, -⟩ := load_ok _ _ _ h1
  unfold afterLoad at h2
  unfold compute
  simp only [h1, hm, checkCUresult, if_true, cuModuleGetFunction, h2, if_false, afterLoad]

theorem compute_launches (env : Env) (op : MemBoundObj) (r : TVMRecordObj)
    (ctx : RuntimeObj) (w0 : World) (h : env.cuModuleLoadDataEx w0 r.ptx = CUDA_SUCCESS)
    (h2 : env.cuModuleGetFunction (afterLoad env r w0) w0.nextHandle r.kernelName =
      CUDA_SUCCESS) :
    compute env op (.tvm r) ctx w0 =
      (checkCUresult (env.cuModuleUnload (afterLaunch env op r w0) w0.nextHandle),
        (cuModuleUnload env w0.nextHandle (afterLaunch env op r w0)).2) := by
  have h1 : (cuModuleLoadDataEx env r.ptx w0).1.1 = CUDA_SUCCESS := by
    unfold cuModuleLoadDataEx; simp only; split <;> simp_all
  have h3 : ∀ w, (cuModuleUnload env w0.nextHandle w).1 = env.cuModuleUnload w w0.nextHandle := by
    intro w; unfold cuModuleUnload; simp only; split <;> rfl
  obtain ⟨hm, -⟩ := load_ok _ _ _ h1
  unfold afterLoad at h2
  unfold compute
  simp only [h1, hm, checkCUresult, if_true, cuModuleGetFunction, h2, cuLaunchKernel,
    foldl_push_eq_map, List.nil_append, range_filterMap_getElem, h3]
  unfold afterLaunch afterLoad launchDim addressesOf
  split <;> simp_all

theorem compute_calls (env : Env) (op : MemBoundObj) (r : TVMRecordObj) (ctx : RuntimeObj)
    (w0 : World) :
    ∃ new, (compute env op (.tvm r) ctx w0).2.trace = w0.trace ++ new ∧
      new <+: recordCalls env op r w0.nextHandle := by
  by_cases h : env.cuModuleLoadDataEx w0 r.ptx = CUDA_SUCCESS
  · by_cases h2 : env.cuModuleGetFunction (afterLoad env r w0) w0.nextHandle r.kernelName =
        CUDA_SUCCESS
    · rw [compute_launches env op r ctx w0 h h2]
      refine ⟨recordCalls env op r w0.nextHandle, ?_, List.prefix_refl _⟩
      simp [unload_trace, afterLaunch, afterLoad_trace, recordCalls]
    · rw [compute_resolve_fails env op r ctx w0 h h2]
      refine ⟨[.cuModuleLoadDataEx r.ptx, .cuModuleGetFunction w0.nextHandle r.kernelName],
        by simp [afterLoad_trace], ?_⟩
      simp [recordCalls, List.prefix_iff_eq_take]
  · rw [compute_load_fails env op r ctx w0 h]
    refine ⟨[.cuModuleLoadDataEx r.ptx], by simp [afterLoad_trace], ?_⟩
    simp [recordCalls, List.prefix_iff_eq_take]

theorem compute_ok (env : Env) (op : MemBoundObj) (r : TVMRecordObj) (ctx : RuntimeObj)
    (w0 wf : World) (h : compute env op (.tvm r) ctx w0 = (.ok (), wf)) :
    wf.trace = w0.trace ++ recordCalls env op r w0.nextHandle ∧
      wf.modules = w0.modules ∧ wf.programs = w0.programs := by
  by_cases h1 : env.cuModuleLoadDataEx w0 r.ptx = CUDA_SUCCESS
  · by_cases h2 : env.cuModuleGetFunction (afterLoad env r w0) w0.nextHandle r.kernelName =
        CUDA_SUCCESS
    · rw [compute_launches env op r ctx w0 h1 h2] at h
      simp only [Prod.mk.injEq] at h
      obtain ⟨hu, rfl⟩ := h
      rw [checkCUresult_ok] at hu
      have hl : (cuModuleLoadDataEx env r.ptx w0).1.1 = CUDA_SUCCESS := by
        unfold cuModuleLoadDataEx; simp only; split <;> simp_all
      obtain ⟨-, hmods⟩ := load_ok _ _ _ hl
      have hu2 : (cuModuleUnload env w0.nextHandle (afterLaunch env op r w0)).1 =
          CUDA_SUCCESS := by
        unfold cuModuleUnload; simp only; split <;> simp_all
      refine ⟨?_, ?_, ?_⟩
      · simp [unload_trace, afterLaunch, afterLoad_trace, recordCalls]
      · rw [unload_ok _ _ _ hu2]
        simp [afterLaunch, afterLoad, hmods]
      · simp [unload_programs, afterLaunch, afterLoad, load_programs]
    · rw [compute_resolve_fails env op r ctx w0 h1 h2] at h
      simp at h
  · rw [compute_load_fails env op r ctx w0 h1] at h
    simp at h

theorem tune_fails (env : Env) (op : MemBoundObj) (w0 wf : World) (e : Failure)
    (new : List Call) (ht : wf.trace = w0.trace ++ new) (hnew : ∀ c ∈ new, TuneCall op c)
    (hk : FailureKind e) (hgo : GoesOn env op new (.error e)) :
    TuneOutcome env op w0 (.error e) wf := by
  refine ⟨?_, ?_, ?_, ?_⟩
  · simpa [callsOf, ht] using hnew
  · intro e2 h2
    simp only [Except.error.injEq] at h2
    exact h2 ▸ hk
  · simpa [callsOf, ht] using hgo
  · intro rec h2
    simp at h2

theorem checkCUresult_kind (r : CUresult) (e : Failure) (h : checkCUresult r = .error e) :
    FailureKind e := by
  rw [checkCUresult_error] at h
  exact Or.inr (Or.inr (Or.inr (Or.inr ⟨r, h.1, h.2⟩)))

theorem ub_kind : FailureKind .undefinedBehaviour := Or.inr (Or.inr (Or.inr (Or.inl rfl)))

theorem tune_spec (env : Env) (op : MemBoundObj) (ctx : RuntimeObj)
    (w0 wf : World) (res : Except Failure PerfRecordObj) (h : tune env op ctx w0 = (res, wf)) :
    TuneOutcome env op w0 res wf := by
  unfold tune at h
  simp -iota only at h
  simp -iota only [foldl_push_eq_map, List.nil_append, range_filterMap_getElem] at h
  split at h
  · rename_i e w1 h1
    simp only [Prod.mk.injEq] at h
    obtain ⟨rfl, rfl⟩ := h
    obtain ⟨⟨extra, ht, hx⟩, -, -, hk⟩ := getAnsorCode_error _ _ _ _ _ _ _ _ _ _ _ _ h1
    refine tune_fails env op w0 _ e _ ht ?_ ?_ ?_
    · intro c hc
      rcases List.mem_cons.mp hc with rfl | hc
      · simp [TuneCall, funcOf]
      · obtain ⟨t, rfl⟩ := hx c hc
        simp [TuneCall]
    · rcases hk with hk | hk | hk
      · exact Or.inl hk
      · exact Or.inr (Or.inl hk)
      · exact Or.inr (Or.inr (Or.inl hk))
    · refine ⟨by simp [requestOf, funcOf], ?_⟩
      intro prog opts hc
      exfalso
      rcases List.mem_cons.mp hc with hc | hc
      · simp at hc
      · obtain ⟨t, ht2⟩ := hx _ hc
        simp at ht2
  · rename_i res1 w1 h1
    obtain ⟨rfl, temp, hans, hloop⟩ := getAnsorCode_ok _ _ _ _ _ _ _ _ _ _ _ _ h1
    obtain ⟨code, ps⟩ := res1
    obtain ⟨p0, p1, p2, p3, p4, p5, rfl, htake⟩ := castLoop_six _ _ hloop
    simp -iota only at h hans
    clear h1 hloop
    have hreq : Call.gen_ansor_op (env.dispatch op.nnetExpr).inputShapes
        (List.replicate (env.dispatch op.nnetExpr).inputShapes.length "float32")
        (env.dispatch op.nnetExpr).outputShape "float32" (env.dispatch op.nnetExpr).stmts
        ("mem_bound_" ++ to_string op.guid) (List.map getVarName op.inputs)
        (getVarName op.output) = requestOf env op := rfl
    rw [hreq] at h
    split at h
    · rename_i r0 w2 h2
      simp only [Prod.mk.injEq] at h
      obtain ⟨rfl, rfl⟩ := h
      obtain ⟨ht, -, -⟩ := create_none _ _ _ _ _ _ h2
      refine tune_fails env op w0 _ _ [requestOf env op, .nvrtcCreateProgram code (fileNameOf op.guid)]
        (by simp [ht, fileNameOf, funcOf]) ?_ ub_kind (by simp [GoesOn, requestOf])
      simp [TuneCall, requestOf, funcOf, fileNameOf, kernelNameOf, addressesOf]
    · rename_i r0 prog w2 h2
      obtain ⟨hprog, ht2, hp2, hm2, hn2⟩ := create_some _ _ _ _ _ _ _ h2
      simp only [emit_trace, emit_nextHandle] at ht2 hp2 hm2 hn2 hprog
      clear h2
      split at h
      rename_i r3 w3 h3
      have hw3 := compile_eq _ _ _ _ _ _ h3
      clear h3
      split at h
      rename_i logSize w4 h4
      have hw4 := logSize_eq _ _ _ _ _ h4
      clear h4
      split at h
      rename_i ptxSize w5 h5
      have hw5 := ptxSize_eq _ _ _ _ _ h5
      clear h5
      have ht5 : w5.trace = w0.trace ++ [requestOf env op,
          .nvrtcCreateProgram code (fileNameOf op.guid),
          .nvrtcCompileProgram prog ["--gpu-architecture=compute_80", "--fmad=false"],
          .nvrtcGetProgramLogSize prog, .nvrtcGetPTXSize prog] := by
        rw [hw5, hw4, hw3]; simp [ht2, fileNameOf, funcOf]
      have hT5 : ∀ c ∈ [requestOf env op,
          .nvrtcCreateProgram code (fileNameOf op.guid),
          .nvrtcCompileProgram prog ["--gpu-architecture=compute_80", "--fmad=false"],
          .nvrtcGetProgramLogSize prog, .nvrtcGetPTXSize prog], TuneCall op c := by
        simp [TuneCall, requestOf, funcOf, fileNameOf, kernelNameOf, addressesOf]
      split at h
      · simp only [Prod.mk.injEq] at h
        obtain ⟨rfl, rfl⟩ := h
        exact tune_fails env op w0 _ _ _ ht5 hT5 ub_kind (by simp [GoesOn, requestOf])
      · simp only [Prod.mk.injEq] at h
        obtain ⟨rfl, rfl⟩ := h
        exact tune_fails env op w0 _ _ _ ht5 hT5 ub_kind (by simp [GoesOn, requestOf])
      · rename_i ls ps
        split at h
        rename_i logW w6 h6
        have hw6 := log_eq _ _ _ _ _ h6
        clear h6
        have ht6 : w6.trace = w0.trace ++ [requestOf env op,
            .nvrtcCreateProgram code (fileNameOf op.guid),
            .nvrtcCompileProgram prog ["--gpu-architecture=compute_80", "--fmad=false"],
            .nvrtcGetProgramLogSize prog, .nvrtcGetPTXSize prog, .nvrtcGetProgramLog prog] := by
          rw [hw6]; simp [ht5]
        have hT6 : ∀ c ∈ [requestOf env op,
            .nvrtcCreateProgram code (fileNameOf op.guid),
            .nvrtcCompileProgram prog ["--gpu-architecture=compute_80", "--fmad=false"],
            .nvrtcGetProgramLogSize prog, .nvrtcGetPTXSize prog, .nvrtcGetProgramLog prog],
            TuneCall op c := by
          simp [TuneCall, requestOf, funcOf, fileNameOf, kernelNameOf, addressesOf]
        split at h
        · rename_i e he
          simp only [Prod.mk.injEq] at h
          obtain ⟨rfl, rfl⟩ := h
          rw [writeBuffer_error _ _ _ he]
          exact tune_fails env op w0 _ _ _ ht6 hT6 ub_kind (by simp [GoesOn, requestOf])
        · rename_i log hlog
          split at h
          rename_i ptxW w7 h7
          have hw7 := ptx_eq _ _ _ _ _ h7
          clear h7
          have ht7 : w7.trace = w0.trace ++ [requestOf env op,
              .nvrtcCreateProgram code (fileNameOf op.guid),
              .nvrtcCompileProgram prog ["--gpu-architecture=compute_80", "--fmad=false"],
              .nvrtcGetProgramLogSize prog, .nvrtcGetPTXSize prog, .nvrtcGetProgramLog prog,
              .nvrtcGetPTX prog] := by
            rw [hw7]; simp [ht6]
          have hT7 : ∀ c ∈ [requestOf env op,
              .nvrtcCreateProgram code (fileNameOf op.guid),
              .nvrtcCompileProgram prog ["--gpu-architecture=compute_80", "--fmad=false"],
              .nvrtcGetProgramLogSize prog, .nvrtcGetPTXSize prog, .nvrtcGetProgramLog prog,
              .nvrtcGetPTX prog], TuneCall op c := by
            simp [TuneCall, requestOf, funcOf, fileNameOf, kernelNameOf, addressesOf]
          have hp7 : w7.programs = w0.nextHandle :: w0.programs := by
            rw [hw7, hw6, hw5, hw4, hw3]; simpa using hp2
          have hm7 : w7.modules = w0.modules := by
            rw [hw7, hw6, hw5, hw4, hw3]; simpa using hm2
          have hn7 : w7.nextHandle = w0.nextHandle + 1 := by
            rw [hw7, hw6, hw5, hw4, hw3]; simpa using hn2
          split at h
          · rename_i e he
            simp only [Prod.mk.injEq] at h
            obtain ⟨rfl, rfl⟩ := h
            rw [writeBuffer_error _ _ _ he]
            exact tune_fails env op w0 _ _ _ ht7 hT7 ub_kind (by simp [GoesOn, requestOf])
          · rename_i ptx hptx
            split at h
            rename_i r8 module w8 h8
            obtain ⟨ht8, hp8, hok8, -, -⟩ := load_eq _ _ _ _ _ _ h8
            clear h8
            split at h
            · rename_i e he
              simp only [Prod.mk.injEq] at h
              obtain ⟨rfl, rfl⟩ := h
              refine tune_fails env op w0 _ _ _ (by rw [ht8, ht7, List.append_assoc]) ?_
                (checkCUresult_kind _ _ he) ?_
              · simp [TuneCall, requestOf, funcOf, fileNameOf, kernelNameOf, addressesOf]
              · simp [GoesOn, requestOf]
            · rename_i u8 hu8
              rw [checkCUresult_ok] at hu8
              obtain ⟨hmod, hm8⟩ := hok8 hu8
              split at h
              rename_i r9 kernel w9 h9
              obtain ⟨hw9, hk9, -⟩ := getFunction_eq _ _ _ _ _ _ _ h9
              clear h9
              split at h
              · rename_i e he
                simp only [Prod.mk.injEq] at h
                obtain ⟨rfl, rfl⟩ := h
                refine tune_fails env op w0 _ _ _
                  (by rw [hw9, emit_trace, ht8, ht7, List.append_assoc, List.append_assoc]) ?_
                  (checkCUresult_kind _ _ he) ?_
                · simp [TuneCall, requestOf, funcOf, fileNameOf, kernelNameOf, addressesOf]
                · simp [GoesOn, requestOf]
              · rename_i u9 hu9
                have ht9 : w9.trace = w0.trace ++ [requestOf env op,
                    .nvrtcCreateProgram code (fileNameOf op.guid),
                    .nvrtcCompileProgram prog ["--gpu-architecture=compute_80", "--fmad=false"],
                    .nvrtcGetProgramLogSize prog, .nvrtcGetPTXSize prog,
                    .nvrtcGetProgramLog prog, .nvrtcGetPTX prog, .cuModuleLoadDataEx ptx,
                    .cuModuleGetFunction module (kernelNameOf op.guid)] := by
                  rw [hw9, emit_trace, ht8, ht7]; simp [kernelNameOf, funcOf]
                split at h
                · rename_i e w11 h11
                  simp only [Prod.mk.injEq] at h
                  obtain ⟨rfl, rfl⟩ := h
                  rcases timeit_eq env ctx kernel _ _ _ _ _ _ _ w9 _ _ h11 with
                    ⟨-, he, hw11⟩ | ⟨-, he, -⟩
                  · simp only [Except.error.injEq] at he
                    subst he
                    have ht11 : w11.trace = w0.trace ++ [requestOf env op,
                        .nvrtcCreateProgram code (fileNameOf op.guid),
                        .nvrtcCompileProgram prog
                          ["--gpu-architecture=compute_80", "--fmad=false"],
                        .nvrtcGetProgramLogSize prog, .nvrtcGetPTXSize prog,
                        .nvrtcGetProgramLog prog, .nvrtcGetPTX prog, .cuModuleLoadDataEx ptx,
                        .cuModuleGetFunction module (kernelNameOf op.guid),
                        .cuLaunchKernel kernel (launchDim env [p0, p1, p2, p3, p4, p5] 0)
                          (launchDim env [p0, p1, p2, p3, p4, p5] 1)
                          (launchDim env [p0, p1, p2, p3, p4, p5] 2)
                          (launchDim env [p0, p1, p2, p3, p4, p5] 3)
                          (launchDim env [p0, p1, p2, p3, p4, p5] 4)
                          (launchDim env [p0, p1, p2, p3, p4, p5] 5)
                          0 (addressesOf op)] := by
                      rw [hw11, emit_trace, ht9]; simp [addressesOf, launchDim]
                    refine tune_fails env op w0 _ _ _ ht11 ?_ ub_kind
                      (by simp [GoesOn, requestOf])
                    simp [TuneCall, requestOf, funcOf, fileNameOf, kernelNameOf, addressesOf, hk9]
                  · simp at he
                · rename_i time w11 h11
                  rcases timeit_eq env ctx kernel _ _ _ _ _ _ _ w9 _ _ h11 with
                    ⟨-, he, -⟩ | ⟨-, -, hw11⟩
                  · simp at he
                  · clear h11
                    split at h
                    rename_i r12 w12 h12
                    obtain ⟨ht12, hp12, hok12, -, -⟩ := unload_eq _ _ _ _ _ h12
                    clear h12
                    have ht12b : w12.trace = w0.trace ++ [requestOf env op,
                        .nvrtcCreateProgram code (fileNameOf op.guid),
                        .nvrtcCompileProgram prog
                          ["--gpu-architecture=compute_80", "--fmad=false"],
                        .nvrtcGetProgramLogSize prog, .nvrtcGetPTXSize prog,
                        .nvrtcGetProgramLog prog, .nvrtcGetPTX prog, .cuModuleLoadDataEx ptx,
                        .cuModuleGetFunction module (kernelNameOf op.guid),
                        .cuLaunchKernel kernel (launchDim env [p0, p1, p2, p3, p4, p5] 0)
                          (launchDim env [p0, p1, p2, p3, p4, p5] 1)
                          (launchDim env [p0, p1, p2, p3, p4, p5] 2)
                          (launchDim env [p0, p1, p2, p3, p4, p5] 3)
                          (launchDim env [p0, p1, p2, p3, p4, p5] 4)
                          (launchDim env [p0, p1, p2, p3, p4, p5] 5)
                          0 (addressesOf op), .sync,
                        .cuModuleUnload module] := by
                      rw [ht12, hw11]; simp [ht9, addressesOf, launchDim]
                    split at h
                    · rename_i e he
                      simp only [Prod.mk.injEq] at h
                      obtain ⟨rfl, rfl⟩ := h
                      refine tune_fails env op w0 _ _ _ ht12b ?_ (checkCUresult_kind _ _ he)
                        (by simp [GoesOn, requestOf])
                      simp [TuneCall, requestOf, funcOf, fileNameOf, kernelNameOf, addressesOf,
                        hk9]
                    · rename_i u12 hu12
                      rw [checkCUresult_ok] at hu12
                      simp only [Prod.mk.injEq] at h
                      obtain ⟨rfl, rfl⟩ := h
                      have hmodule : module = w0.nextHandle + 1 := by rw [hmod, hn7]
                      refine ⟨?_, ?_, ?_, ?_⟩
                      · simp only [callsOf, destroy_trace, ht12b, List.append_assoc,
                          List.drop_left]
                        simp [TuneCall, requestOf, funcOf, fileNameOf, kernelNameOf, addressesOf,
                          hk9]
                      · intro e he
                        simp at he
                      · simp only [callsOf, destroy_trace, ht12b, List.append_assoc,
                          List.drop_left]
                        simp [GoesOn, requestOf]
                      · intro rec hrec
                        simp only [Except.ok.injEq] at hrec
                        subst hrec
                        refine ⟨code, temp, _, ?_, rfl, ?_, ?_, ?_, ?_, ?_, ?_⟩
                        · simpa [answerOf, funcOf] using hans
                        · simp [kernelNameOf, funcOf]
                        · simp
                        · simp [htake]
                        · rw [destroy_trace, ht12b, hk9, ← hmodule, ← hprog]
                          simp [tuneCalls, kernelNameOf, funcOf]
                        · rw [destroy_modules, hok12 hu12, hw11]
                          simp [hw9, hm8, hn7, hm7, hmod]
                        · rw [destroy_programs, hp12, hw11]
                          simp [hw9, hp8, hp7, hprog]

/-! ## Graph handler -/

theorem addOpWithOutputs_ok (g g1 : GraphObj) (R : OpRules) (type : OpType) (inputs : TensorVec)
    (y : Tensor) (attrs : OpAttrs) (op : OperatorObj)
    (h : g.addOpWithOutputs R type inputs y attrs = (.ok op, g1)) :
    g1.ops = g.ops ++ [op] ∧ op.outputs = [y] ∧ g1.tensors = g.tensors := by
  unfold GraphObj.addOpWithOutputs at h
  split at h
  · simp at h
  · simp only [Prod.mk.injEq, Except.ok.injEq] at h
    obtain ⟨rfl, rfl⟩ := h
    exact ⟨rfl, rfl, rfl⟩

theorem boundTo_of_supplied (g : GraphObj) (R : OpRules) (type : OpType) (inputs : TensorVec)
    (y : Tensor) (attrs : OpAttrs) :
    BoundTo { g := g } y
      (match g.addOpWithOutputs R type inputs y attrs with
       | (.error e, g1) => (.error e, { g := g1 })
       | (.ok _, g1) => (.ok y, { g := g1 })) := by
  intro r hr
  split at hr
  · simp at hr
  · rename_i op g1 hop
    obtain ⟨h1, h2, h3⟩ := addOpWithOutputs_ok _ _ _ _ _ _ _ _ hop
    simp only [Except.ok.injEq] at hr
    refine ⟨hr.symm, op, h1, h2, ?_, h3⟩
    simp [OperatorObj.getOutput, h2]

theorem builds_of_supplied (g : GraphObj) (R : OpRules) (type : OpType) (inputs : TensorVec)
    (y : Tensor) (attrs : OpAttrs) :
    Builds R { g := g } y type inputs attrs
      (match g.addOpWithOutputs R type inputs y attrs with
       | (.error e, g1) => (.error e, { g := g1 })
       | (.ok _, g1) => (.ok y, { g := g1 })) := by
  refine ⟨?_, ?_, boundTo_of_supplied g R type inputs y attrs⟩
  · intro hacc
    unfold GraphObj.addOpWithOutputs
    cases hi : R.infer type inputs attrs with
    | none => exact absurd hi hacc
    | some v => rfl
  · intro hrej
    unfold GraphObj.addOpWithOutputs
    rw [hrej]

/-- C1: each of the twenty construction methods of `GraphHandlerObj`, called with an
output tensor that is not null, does this: when the rules of the operator kind accept
the construction, the call returns normally, it returns that very tensor, and the graph
has gained exactly one operator, of the kind of the method, whose only output is that
tensor; when they reject it, the call fails and the graph is as it was; and in any case
a call that returned normally returned that tensor and added one operator bound to
it. -/
theorem C1_supplied_output_is_bound_and_returned (R : OpRules) (h : GraphHandlerObj)
    (y : Tensor) (hy : y ≠ none) :
    (∀ a b transA transB bias act,
      Builds R h y .Matmul [a, b, bias] (.matmul transA transB act)
        (h.matmul R a b y transA transB bias act)) ∧
    (∀ input mean var scale bias momentum eps training,
      Builds R h y .BatchNorm [input, mean, var, scale, bias]
        (.batchNorm momentum eps training)
        (h.batchNorm R input y mean var scale bias momentum eps training)) ∧
    (∀ input kh kw dh dw ph pw sh sw,
      Builds R h y .MaxPool [input] (.pool kh kw dh dw ph pw sh sw)
        (h.maxPool R input y kh kw dh dw ph pw sh sw)) ∧
    (∀ input kh kw dh dw ph pw sh sw,
      Builds R h y .AvgPool [input] (.pool kh kw dh dw ph pw sh sw)
        (h.avgPool R input y kh kw dh dw ph pw sh sw)) ∧
    (∀ a b, Builds R h y .Add [a, b] .none (h.add R a b y) ∧
      Builds R h y .Sub [a, b] .none (h.sub R a b y) ∧
      Builds R h y .Mul [a, b] .none (h.mul R a b y) ∧
      Builds R h y .Div [a, b] .none (h.div R a b y) ∧
      Builds R h y .Pow [a, b] .none (h.pow R a b y)) ∧
    (∀ x, Builds R h y .Relu [x] .none (h.relu R x y) ∧
      Builds R h y .Sigmoid [x] .none (h.sigmoid R x y) ∧
      Builds R h y .Tanh [x] .none (h.tanh R x y) ∧
      Builds R h y .Softmax [x] .none (h.softmax R x y) ∧
      Builds R h y .Abs [x] .none (h.abs R x y) ∧
      Builds R h y .Identity [x] .none (h.identity R x y) ∧
      Builds R h y .Flatten [x] .none (h.flatten R x y)) ∧
    (∀ data shape, Builds R h y .Reshape [data] (.reshape shape) (h.reshape R data y shape)) ∧
    (∀ inputs dim, Builds R h y .Concat inputs (.concat dim) (h.concat R inputs y dim)) ∧
    (∀ data indices axis,
      Builds R h y .Gather [data, indices] (.gather axis) (h.gather R data indices y axis)) ∧
    (∀ data axes keepdims,
      Builds R h y .ReduceMean [data] (.reduceMean axes keepdims)
        (h.reduceMean R data y axes keepdims)) := by
  have hs : y.isSome = true := by
    cases y with
    | none => exact absurd rfl hy
    | some t => rfl
  obtain ⟨g⟩ := h
  refine ⟨?_, ?_, ?_, ?_, ?_, ?_, ?_, ?_, ?_, ?_⟩
  · intro a b transA transB bias act
    simp only [GraphHandlerObj.matmul, hs, if_true]
    exact builds_of_supplied g R _ _ y _
  · intro input mean var scale bias momentum eps training
    simp only [GraphHandlerObj.batchNorm, hs, if_true]
    exact builds_of_supplied g R _ _ y _
  · intro input kh kw dh dw ph pw sh sw
    simp only [GraphHandlerObj.maxPool, hs, if_true]
    exact builds_of_supplied g R _ _ y _
  · intro input kh kw dh dw ph pw sh sw
    simp only [GraphHandlerObj.avgPool, hs, if_true]
    exact builds_of_supplied g R _ _ y _
  · intro a b
    simp only [GraphHandlerObj.add, GraphHandlerObj.sub, GraphHandlerObj.mul,
      GraphHandlerObj.div, GraphHandlerObj.pow, GraphHandlerObj.DEFINE_ELEMENT_WISE_METHOD, hs,
      if_true]
    exact ⟨builds_of_supplied g R _ _ y _, builds_of_supplied g R _ _ y _,
      builds_of_supplied g R _ _ y _, builds_of_supplied g R _ _ y _,
      builds_of_supplied g R _ _ y _⟩
  · intro x
    simp only [GraphHandlerObj.relu, GraphHandlerObj.sigmoid, GraphHandlerObj.tanh,
      GraphHandlerObj.softmax, GraphHandlerObj.abs, GraphHandlerObj.identity,
      GraphHandlerObj.flatten, GraphHandlerObj.DEFINE_UNARY_METHOD, hs, if_true]
    exact ⟨builds_of_supplied g R _ _ y _, builds_of_supplied g R _ _ y _,
      builds_of_supplied g R _ _ y _, builds_of_supplied g R _ _ y _,
      builds_of_supplied g R _ _ y _, builds_of_supplied g R _ _ y _,
      builds_of_supplied g R _ _ y _⟩
  · intro data shape
    simp only [GraphHandlerObj.reshape, hs, if_true]
    exact builds_of_supplied g R _ _ y _
  · intro inputs dim
    simp only [GraphHandlerObj.concat, hs, if_true]
    exact builds_of_supplied g R _ _ y _
  · intro data indices axis
    simp only [GraphHandlerObj.gather, hs, if_true]
    exact builds_of_supplied g R _ _ y _
  · intro data axes keepdims
    simp only [GraphHandlerObj.reduceMean, hs, if_true]
    exact builds_of_supplied g R _ _ y _

/-- Witness of C1: on the empty graph, with rules that accept every construction, each
of the twenty methods called with the supplied output `sampleC` returns `sampleC`, and
`matmul` and `relu` leave the graph with the one operator bound to it. -/
theorem C1_supplied_output_witness :
    (some sampleC : Tensor) ≠ none ∧
    ((sampleHandler.matmul sampleRules (some sampleA) (some sampleB) (some sampleC) false true
        none 0).1 = .ok (some sampleC) ∧
      (sampleHandler.batchNorm sampleRules (some sampleA) (some sampleC) (some sampleB)
        (some sampleB) (some sampleB) (some sampleB) 0 0 false).1 = .ok (some sampleC) ∧
      (sampleHandler.maxPool sampleRules (some sampleA) (some sampleC) 2 2 1 1 0 0 1 1).1
        = .ok (some sampleC) ∧
      (sampleHandler.avgPool sampleRules (some sampleA) (some sampleC) 2 2 1 1 0 0 1 1).1
        = .ok (some sampleC) ∧
      (sampleHandler.add sampleRules (some sampleA) (some sampleB) (some sampleC)).1
        = .ok (some sampleC) ∧
      (sampleHandler.sub sampleRules (some sampleA) (some sampleB) (some sampleC)).1
        = .ok (some sampleC) ∧
      (sampleHandler.mul sampleRules (some sampleA) (some sampleB) (some sampleC)).1
        = .ok (some sampleC) ∧
      (sampleHandler.div sampleRules (some sampleA) (some sampleB) (some sampleC)).1
        = .ok (some sampleC) ∧
      (sampleHandler.pow sampleRules (some sampleA) (some sampleB) (some sampleC)).1
        = .ok (some sampleC) ∧
      (sampleHandler.relu sampleRules (some sampleA) (some sampleC)).1 = .ok (some sampleC) ∧
      (sampleHandler.sigmoid sampleRules (some sampleA) (some sampleC)).1
        = .ok (some sampleC) ∧
      (sampleHandler.tanh sampleRules (some sampleA) (some sampleC)).1 = .ok (some sampleC) ∧
      (sampleHandler.softmax sampleRules (some sampleA) (some sampleC)).1
        = .ok (some sampleC) ∧
      (sampleHandler.abs sampleRules (some sampleA) (some sampleC)).1 = .ok (some sampleC) ∧
      (sampleHandler.identity sampleRules (some sampleA) (some sampleC)).1
        = .ok (some sampleC) ∧
      (sampleHandler.flatten sampleRules (some sampleA) (some sampleC)).1
        = .ok (some sampleC) ∧
      (sampleHandler.reshape sampleRules (some sampleA) (some sampleC) [16]).1
        = .ok (some sampleC) ∧
      (sampleHandler.concat sampleRules [some sampleA, some sampleB] (some sampleC) 0).1
        = .ok (some sampleC) ∧
      (sampleHandler.gather sampleRules (some sampleA) (some sampleB) (some sampleC) 0).1
        = .ok (some sampleC) ∧
      (sampleHandler.reduceMean sampleRules (some sampleA) (some sampleC) none true).1
        = .ok (some sampleC)) ∧
    (sampleHandler.matmul sampleRules (some sampleA) (some sampleB) (some sampleC) false true
        none 0).2.g.ops =
      [{ type := .Matmul, inputs := [some sampleA, some sampleB, none],
         outputs := [some sampleC], attrs := .matmul false true 0 }] ∧
    Builds sampleRules sampleHandler (some sampleC) .Matmul [some sampleA, some sampleB, none]
      (.matmul false true 0)
      (sampleHandler.matmul sampleRules (some sampleA) (some sampleB) (some sampleC) false true
        none 0) ∧
    Builds sampleRules sampleHandler (some sampleC) .Relu [some sampleA] .none
      (sampleHandler.relu sampleRules (some sampleA) (some sampleC)) :=
  ⟨by decide,
    ⟨rfl, rfl, rfl, rfl, rfl, rfl, rfl, rfl, rfl, rfl, rfl, rfl, rfl, rfl, rfl, rfl, rfl, rfl,
      rfl, rfl⟩,
    rfl,
    (C1_supplied_output_is_bound_and_returned sampleRules sampleHandler (some sampleC)
      (by decide)).1 (some sampleA) (some sampleB) false true none 0,
    ((C1_supplied_output_is_bound_and_returned sampleRules sampleHandler (some sampleC)
      (by decide)).2.2.2.2.2.1 (some sampleA)).1⟩

theorem dtype_repr_convert_ok (E : OnnxDType) (d : Int) (t : DataType)
    (h : dtype_repr_convert E d = .ok t) : d = E.codeOf t := by
  simp only [dtype_repr_convert, IT_ASSERT] at h
  repeat' split at h
  all_goals
    first
    | (simp only [Except.ok.injEq] at h; subst h; simp_all [OnnxDType.codeOf])
    | simp at h

/-- C10: provided the eight enumerators have distinct values (as the labels of one
`switch` must), `dtype_repr_convert` maps FLOAT, UINT32, UINT8, INT8, UINT16, INT16,
INT32, INT64 to Float32, UInt32, UInt8, Int8, UInt16, Int16, Int32, Int64; it succeeds
on no other code; two codes converted to the same element type are equal; every other
code fails with the assertion "Unsupported data type", and then `tensor` fails with it
and leaves the graph as it was. -/
theorem C10_dtype_conversion_injective_on_supported (E : OnnxDType) (hE : E.codes.Nodup) :
    (dtype_repr_convert E E.FLOAT = .ok .Float32 ∧
      dtype_repr_convert E E.UINT32 = .ok .UInt32 ∧
      dtype_repr_convert E E.UINT8 = .ok .UInt8 ∧
      dtype_repr_convert E E.INT8 = .ok .Int8 ∧
      dtype_repr_convert E E.UINT16 = .ok .UInt16 ∧
      dtype_repr_convert E E.INT16 = .ok .Int16 ∧
      dtype_repr_convert E E.INT32 = .ok .Int32 ∧
      dtype_repr_convert E E.INT64 = .ok .Int64) ∧
    (∀ d t, dtype_repr_convert E d = .ok t → d ∈ E.codes) ∧
    (∀ d1 d2 t, dtype_repr_convert E d1 = .ok t → dtype_repr_convert E d2 = .ok t →
      d1 = d2) ∧
    (∀ d, d ∉ E.codes →
      dtype_repr_convert E d = .error (.assertion "Unsupported data type")) ∧
    (∀ (h : GraphHandlerObj) (dims : Shape) (d : Int), d ∉ E.codes →
      h.tensor E dims d = (.error (.assertion "Unsupported data type"), h)) := by
  have hfail : ∀ d, d ∉ E.codes →
      dtype_repr_convert E d = .error (.assertion "Unsupported data type") := by
    intro d hd
    simp only [OnnxDType.codes, List.mem_cons, List.mem_singleton, not_or, List.not_mem_nil,
      not_false_eq_true, and_true] at hd
    obtain ⟨k1, k2, k3, k4, k5, k6, k7, k8⟩ := hd
    simp [dtype_repr_convert, k1, k2, k3, k4, k5, k6, k7, k8, IT_ASSERT]
  refine ⟨?_, ?_, ?_, hfail, ?_⟩
  · simp only [OnnxDType.codes, List.nodup_cons, List.mem_cons, List.mem_singleton, not_or,
      List.not_mem_nil, not_false_eq_true, List.nodup_nil, and_true] at hE
    obtain ⟨⟨h12, h13, h14, h15, h16, h17, h18⟩, ⟨h23, h24, h25, h26, h27, h28⟩,
      ⟨h34, h35, h36, h37, h38⟩, ⟨h45, h46, h47, h48⟩, ⟨h56, h57, h58⟩, ⟨h67, h68⟩, h78⟩ := hE
    simp [dtype_repr_convert, Ne.symm h12, Ne.symm h13, Ne.symm h14, Ne.symm h15,
      Ne.symm h16, Ne.symm h17, Ne.symm h18, Ne.symm h23, Ne.symm h24, Ne.symm h25,
      Ne.symm h26, Ne.symm h27, Ne.symm h28, Ne.symm h34, Ne.symm h35, Ne.symm h36,
      Ne.symm h37, Ne.symm h38, Ne.symm h45, Ne.symm h46, Ne.symm h47, Ne.symm h48,
      Ne.symm h56, Ne.symm h57, Ne.symm h58, Ne.symm h67, Ne.symm h68, Ne.symm h78]
  · intro d t ht
    by_contra hd
    rw [hfail d hd] at ht
    simp at ht
  · intro d1 d2 t hd1 hd2
    rw [dtype_repr_convert_ok E d1 t hd1, dtype_repr_convert_ok E d2 t hd2]
  · intro h dims d hd
    simp [GraphHandlerObj.tensor, hfail d hd]

/-- Witness of C10: with the enumerator values of the ONNX table, which are distinct,
FLOAT (1) converts to Float32, the code 0 fails, and `tensor` with the code 0 fails and
leaves the graph as it was. -/
theorem C10_dtype_conversion_witness :
    onnxCodes.codes.Nodup ∧ dtype_repr_convert onnxCodes 1 = .ok .Float32 ∧
    dtype_repr_convert onnxCodes 0 = .error (.assertion "Unsupported data type") ∧
    sampleHandler.tensor onnxCodes [4, 4] 0 =
      (.error (.assertion "Unsupported data type"), sampleHandler) :=
  ⟨by decide,
    (C10_dtype_conversion_injective_on_supported onnxCodes (by decide)).1.1,
    (C10_dtype_conversion_injective_on_supported onnxCodes (by decide)).2.2.2.1 0 (by decide),
    (C10_dtype_conversion_injective_on_supported onnxCodes (by decide)).2.2.2.2 sampleHandler
      [4, 4] 0 (by decide)⟩

/-! ## MemBound kernel -/

theorem tune_outcome (env : Env) (op : MemBoundObj) (ctx : RuntimeObj) (w0 : World) :
    TuneOutcome env op w0 (tune env op ctx w0).1 (tune env op ctx w0).2 :=
  tune_spec env op ctx w0 _ _ rfl

theorem marshaled_addresses (op : MemBoundObj) : Marshaled op (addressesOf op) := by
  refine ⟨by simp [addressesOf], ?_, ?_⟩
  · intro i hi
    simp [addressesOf, List.getElem?_append_left, hi]
  · simp [addressesOf, List.getElem?_append_right]

theorem named_in_order (op : MemBoundObj) :
    NamedInOrder op (op.inputs.map getVarName, getVarName op.output) := by
  refine ⟨by simp, ?_, rfl⟩
  intro i hi
  simp [hi, getVarName]

theorem recordCalls_launch (env : Env) (op : MemBoundObj) (r : TVMRecordObj) (m : CUmodule)
    (c : Call) (p : List Nat) (hc : c ∈ recordCalls env op r m)
    (hp : c.launchParams = some p) :
    p = addressesOf op := by
  simp only [recordCalls, List.mem_cons, List.mem_singleton, List.not_mem_nil, or_false] at hc
  rcases hc with rfl | rfl | rfl | rfl
  · simp [Call.launchParams] at hp
  · simp [Call.launchParams] at hp
  · simp only [Call.launchParams, Option.some.injEq] at hp
    exact hp.symm
  · simp [Call.launchParams] at hp

theorem compute_callsOf (env : Env) (op : MemBoundObj) (r : TVMRecordObj) (ctx : RuntimeObj)
    (w0 : World) :
    callsOf w0 (compute env op (.tvm r) ctx w0).2 <+: recordCalls env op r w0.nextHandle := by
  obtain ⟨new, h1, h2⟩ := compute_calls env op r ctx w0
  simpa [callsOf, h1] using h2

/-- C2: for every operator, context and state of the world, `compute` without a record
fails with the assertion "A TVM record is required for membound kernel."; it does not
return normally, and it makes no external call at all (no load, launch or unload): the
world is left as it was. -/
theorem C2_compute_without_record_fails (env : Env) (op : MemBoundObj) (ctx : RuntimeObj)
    (w0 : World) :
    (computeWithoutRecord env op ctx w0).1 =
      .error (.assertion "A TVM record is required for membound kernel.") ∧
    (computeWithoutRecord env op ctx w0).1 ≠ .ok () ∧
    (computeWithoutRecord env op ctx w0).2 = w0 ∧
    callsOf w0 (computeWithoutRecord env op ctx w0).2 = [] := by
  simp [computeWithoutRecord, IT_ASSERT, callsOf]

theorem launch_mem_recordCalls (env : Env) (op : MemBoundObj) (r : TVMRecordObj)
    (m : CUmodule) :
    ∃ c ∈ recordCalls env op r m, c.launchParams = some (addressesOf op) :=
  ⟨.cuLaunchKernel { module := m, name := r.kernelName }
      (launchDim env r.invokeParams 0) (launchDim env r.invokeParams 1)
      (launchDim env r.invokeParams 2) (launchDim env r.invokeParams 3)
      (launchDim env r.invokeParams 4) (launchDim env r.invokeParams 5)
      0 (addressesOf op), by simp [recordCalls], rfl⟩

theorem compute_launches_calls (env : Env) (op : MemBoundObj) (r : TVMRecordObj)
    (ctx : RuntimeObj) (w0 : World) (h : env.cuModuleLoadDataEx w0 r.ptx = CUDA_SUCCESS)
    (h2 : env.cuModuleGetFunction (afterLoad env r w0) w0.nextHandle r.kernelName =
      CUDA_SUCCESS) :
    callsOf w0 (compute env op (.tvm r) ctx w0).2 = recordCalls env op r w0.nextHandle := by
  rw [compute_launches env op r ctx w0 h h2]
  simp [callsOf, unload_trace, afterLaunch, afterLoad_trace, recordCalls]

/-- C3: for an operator with n inputs, `compute` with a record, whenever the load and
the entry-point resolution succeed, and `tune`, whenever it returns, make a kernel
launch; every kernel launch either of them makes passes n+1 device addresses, the i-th
being the address of the i-th input and the last the address of the output; the first
call of `tune` is always the request to the synthesizer, which names the variables in
that same order, the i-th input name being "var_" followed by the guid of the i-th
input and the output name "var_" followed by the guid of the output. -/
theorem C3_arguments_in_variable_order (env : Env) (op : MemBoundObj) (ctx : RuntimeObj)
    (w0 : World) :
    (∀ r, ∀ c ∈ callsOf w0 (compute env op (.tvm r) ctx w0).2,
      ∀ p, c.launchParams = some p → Marshaled op p) ∧
    (∀ c ∈ callsOf w0 (tune env op ctx w0).2,
      (∀ p, c.launchParams = some p → Marshaled op p) ∧
      (∀ n, c.synthNames = some n → NamedInOrder op n)) ∧
    (∀ r, env.cuModuleLoadDataEx w0 r.ptx = CUDA_SUCCESS →
      env.cuModuleGetFunction (afterLoad env r w0) w0.nextHandle r.kernelName =
        CUDA_SUCCESS →
      ∃ c ∈ callsOf w0 (compute env op (.tvm r) ctx w0).2,
        c.launchParams = some (addressesOf op)) ∧
    (∀ r, (compute env op (.tvm r) ctx w0).1 = .ok () →
      ∃ c ∈ callsOf w0 (compute env op (.tvm r) ctx w0).2,
        c.launchParams = some (addressesOf op)) ∧
    (∀ rec, (tune env op ctx w0).1 = .ok rec →
      ∃ c ∈ callsOf w0 (tune env op ctx w0).2, c.launchParams = some (addressesOf op)) ∧
    ((callsOf w0 (tune env op ctx w0).2).head? = some (requestOf env op) ∧
      (requestOf env op).synthNames = some (op.inputs.map getVarName, getVarName op.output)) ∧
    Marshaled op (addressesOf op) := by
  refine ⟨?_, ?_, ?_, ?_, ?_, ⟨(tune_outcome env op ctx w0).2.2.1.1, rfl⟩,
    marshaled_addresses op⟩
  · intro r c hc p hp
    have hmem := (compute_callsOf env op r ctx w0).subset hc
    rw [recordCalls_launch env op r _ c p hmem hp]
    exact marshaled_addresses op
  · intro c hc
    have hT := (tune_outcome env op ctx w0).1 c hc
    constructor
    · intro p hp
      cases c <;> simp only [Call.launchParams, Option.some.injEq] at hp <;> try contradiction
      simp only [TuneCall] at hT
      rw [← hp, hT.2]
      exact marshaled_addresses op
    · intro n hn
      cases c <;> simp only [Call.synthNames, Option.some.injEq] at hn <;> try contradiction
      simp only [TuneCall] at hT
      rw [← hn, hT.2.1, hT.2.2]
      exact named_in_order op
  · intro r h1 h2
    rw [compute_launches_calls env op r ctx w0 h1 h2]
    exact launch_mem_recordCalls env op r _
  · intro r hr
    obtain ⟨ht, -, -⟩ := compute_ok env op r ctx w0 _ (Prod.ext hr rfl)
    have hc : callsOf w0 (compute env op (.tvm r) ctx w0).2 =
        recordCalls env op r w0.nextHandle := by simp [callsOf, ht]
    rw [hc]
    exact launch_mem_recordCalls env op r _
  · intro rec hrec
    obtain ⟨code, temp, r, -, -, -, -, -, ht, -, -⟩ :=
      (tune_outcome env op ctx w0).2.2.2 rec hrec
    refine ⟨.cuLaunchKernel { module := w0.nextHandle + 1, name := r.kernelName }
      (launchDim env r.invokeParams 0) (launchDim env r.invokeParams 1)
      (launchDim env r.invokeParams 2) (launchDim env r.invokeParams 3)
      (launchDim env r.invokeParams 4) (launchDim env r.invokeParams 5)
      0 (addressesOf op), ?_, rfl⟩
    simp [callsOf, ht, tuneCalls]

/-- Witness of C3: on the sample operator, `compute` with the sample record and `tune`
both launch with the addresses of its two inputs and then of its output, and `tune`
requests the names "var_1", "var_2" and "var_3". -/
theorem C3_arguments_witness :
    (compute sampleEnv sampleOp (.tvm sampleRecord) cudaContext sampleWorld).1 = .ok () ∧
    (tune sampleEnv sampleOp cudaContext sampleWorld).1 = .ok (.tvm sampleRecord) ∧
    addressesOf sampleOp = [4096, 8192, 12288] ∧
    (∃ c ∈ callsOf sampleWorld
        (compute sampleEnv sampleOp (.tvm sampleRecord) cudaContext sampleWorld).2,
      c.launchParams = some (addressesOf sampleOp)) ∧
    (∃ c ∈ callsOf sampleWorld (tune sampleEnv sampleOp cudaContext sampleWorld).2,
      c.launchParams = some (addressesOf sampleOp)) ∧
    NamedInOrder sampleOp (["var_1", "var_2"], "var_3") :=
  ⟨rfl, rfl, rfl,
    (C3_arguments_in_variable_order sampleEnv sampleOp cudaContext sampleWorld).2.2.1
      sampleRecord rfl rfl,
    (C3_arguments_in_variable_order sampleEnv sampleOp cudaContext sampleWorld).2.2.2.2.1
      _ rfl,
    ((C3_arguments_in_variable_order sampleEnv sampleOp cudaContext sampleWorld).2.1
      (requestOf sampleEnv sampleOp) (by decide)).2 _ rfl⟩

theorem recordCalls_not_synth_or_compiler (env : Env) (op : MemBoundObj) (r : TVMRecordObj)
    (m : CUmodule) (c : Call) (hc : c ∈ recordCalls env op r m) :
    c.isSynthesizer = false ∧ c.isCompiler = false ∧ c.isDevice = true := by
  simp only [recordCalls, List.mem_cons, List.mem_singleton, List.not_mem_nil, or_false] at hc
  rcases hc with rfl | rfl | rfl | rfl <;> exact ⟨rfl, rfl, rfl⟩

theorem launchDim_stored (env : Env) (v : List Int) (i : Nat) (x : Int)
    (h : v[i]? = some x) : launchDim env v i = toUnsigned x := by
  simp [launchDim, vectorAt, h]

theorem launchDim_env (env env1 : Env) (v : List Int) (i : Nat) (h : i < v.length) :
    launchDim env v i = launchDim env1 v i := by
  have hx : v[i]? = some v[i] := List.getElem?_eq_getElem h
  rw [launchDim_stored env v i _ hx, launchDim_stored env1 v i _ hx]

theorem toUnsigned_of_nonneg (x : Int) (h0 : 0 ≤ x) (h1 : x < 4294967296) :
    (toUnsigned x : Int) = x := by
  unfold toUnsigned
  rw [Int.emod_eq_of_lt h0 h1]
  exact Int.toNat_of_nonneg h0

/-- C4 as amended: an execution with a record never calls the synthesizer or the
compiler.  Its external calls are an initial part of: load of the stored binary,
resolution of the stored entry-point name, one launch with the six stored launch
parameters and the current device addresses, unload.  It makes the load only when the
driver refuses the binary, the load and the resolution only when the entry point is
not found, and otherwise exactly these four calls, ending as the check of the unload
result says; so whenever it returns normally the calls are exactly these four.  Each
launch parameter the record holds is passed converted to `unsigned int`, which leaves a
non-negative one as it is.  A record returned by `tune` for the operator holds six
parameters, and the load, the resolution and the launch that `tune` benchmarked are the
first three of those four calls. -/
theorem C4_record_execution_calls (env : Env) (op : MemBoundObj) (r : TVMRecordObj)
    (ctx : RuntimeObj) (w0 : World) :
    (∀ c ∈ callsOf w0 (compute env op (.tvm r) ctx w0).2,
      c.isSynthesizer = false ∧ c.isCompiler = false) ∧
    callsOf w0 (compute env op (.tvm r) ctx w0).2 <+: recordCalls env op r w0.nextHandle ∧
    (env.cuModuleLoadDataEx w0 r.ptx ≠ CUDA_SUCCESS →
      (compute env op (.tvm r) ctx w0).1 =
        .error (.cudaError (env.cuModuleLoadDataEx w0 r.ptx)) ∧
      callsOf w0 (compute env op (.tvm r) ctx w0).2 =
        (recordCalls env op r w0.nextHandle).take 1) ∧
    (env.cuModuleLoadDataEx w0 r.ptx = CUDA_SUCCESS →
      env.cuModuleGetFunction (afterLoad env r w0) w0.nextHandle r.kernelName ≠
        CUDA_SUCCESS →
      (compute env op (.tvm r) ctx w0).1 = .error (.cudaError
        (env.cuModuleGetFunction (afterLoad env r w0) w0.nextHandle r.kernelName)) ∧
      callsOf w0 (compute env op (.tvm r) ctx w0).2 =
        (recordCalls env op r w0.nextHandle).take 2) ∧
    (env.cuModuleLoadDataEx w0 r.ptx = CUDA_SUCCESS →
      env.cuModuleGetFunction (afterLoad env r w0) w0.nextHandle r.kernelName =
        CUDA_SUCCESS →
      (compute env op (.tvm r) ctx w0).1 =
        checkCUresult (env.cuModuleUnload (afterLaunch env op r w0) w0.nextHandle) ∧
      callsOf w0 (compute env op (.tvm r) ctx w0).2 = recordCalls env op r w0.nextHandle) ∧
    ((compute env op (.tvm r) ctx w0).1 = .ok () →
      callsOf w0 (compute env op (.tvm r) ctx w0).2 = recordCalls env op r w0.nextHandle) ∧
    ((∀ i x, r.invokeParams[i]? = some x → launchDim env r.invokeParams i = toUnsigned x) ∧
      (∀ x : Int, 0 ≤ x → x < 4294967296 → (toUnsigned x : Int) = x)) ∧
    (∀ (env1 : Env) (ctx1 : RuntimeObj) (w1 : World),
      (tune env1 op ctx1 w1).1 = .ok (.tvm r) →
      r.invokeParams.length = 6 ∧
      ∃ code, callsOf w1 (tune env1 op ctx1 w1).2 =
          tuneCalls env1 op code r w1.nextHandle (w1.nextHandle + 1) ∧
        ((callsOf w1 (tune env1 op ctx1 w1).2).drop 7).take 3 =
          (recordCalls env op r (w1.nextHandle + 1)).take 3) := by
  refine ⟨?_, compute_callsOf env op r ctx w0, ?_, ?_, ?_, ?_,
    ⟨fun i x hx => launchDim_stored env _ i x hx, toUnsigned_of_nonneg⟩, ?_⟩
  · intro c hc
    have h := recordCalls_not_synth_or_compiler env op r _ c
      ((compute_callsOf env op r ctx w0).subset hc)
    exact ⟨h.1, h.2.1⟩
  · intro h
    rw [compute_load_fails env op r ctx w0 h]
    exact ⟨rfl, by simp [callsOf, afterLoad_trace, recordCalls]⟩
  · intro h h2
    rw [compute_resolve_fails env op r ctx w0 h h2]
    exact ⟨rfl, by simp [callsOf, afterLoad_trace, recordCalls]⟩
  · intro h h2
    refine ⟨?_, compute_launches_calls env op r ctx w0 h h2⟩
    rw [compute_launches env op r ctx w0 h h2]
  · intro hr
    obtain ⟨ht, -, -⟩ := compute_ok env op r ctx w0 _ (Prod.ext hr rfl)
    simp [callsOf, ht]
  · intro env1 ctx1 w1 hr
    obtain ⟨code, temp, r2, -, hrec, -, hlen, -, ht, -, -⟩ :=
      (tune_outcome env1 op ctx1 w1).2.2.2 _ hr
    simp only [PerfRecordObj.tvm.injEq] at hrec
    subst hrec
    refine ⟨hlen, code, by simp [callsOf, ht], ?_⟩
    simp only [callsOf, ht, List.drop_left, tuneCalls, recordCalls, List.drop_succ_cons,
      List.drop_zero, List.take_succ_cons, List.take_zero]
    rw [launchDim_env env1 env _ 0 (by omega), launchDim_env env1 env _ 1 (by omega),
      launchDim_env env1 env _ 2 (by omega), launchDim_env env1 env _ 3 (by omega),
      launchDim_env env1 env _ 4 (by omega), launchDim_env env1 env _ 5 (by omega)]

/-- Witness of C4: the execution of the sample operator with the record `tune` returned
for it returns normally after exactly the four driver calls, launching with the stored
configuration 1, 1, 1, 16, 1, 1. -/
theorem C4_record_execution_witness :
    (compute sampleEnv sampleOp (.tvm sampleRecord) cudaContext sampleWorld).1 = .ok () ∧
    (tune sampleEnv sampleOp cudaContext sampleWorld).1 = .ok (.tvm sampleRecord) ∧
    callsOf sampleWorld (compute sampleEnv sampleOp (.tvm sampleRecord) cudaContext
      sampleWorld).2 = recordCalls sampleEnv sampleOp sampleRecord 0 ∧
    recordCalls sampleEnv sampleOp sampleRecord 0 =
      [.cuModuleLoadDataEx "ptx", .cuModuleGetFunction 0 "mem_bound_7_kernel0",
       .cuLaunchKernel { module := 0, name := "mem_bound_7_kernel0" } 1 1 1 16 1 1 0
         [4096, 8192, 12288],
       .cuModuleUnload 0] ∧
    sampleRecord.invokeParams.length = 6 :=
  ⟨rfl, rfl,
    ((C4_record_execution_calls sampleEnv sampleOp sampleRecord cudaContext
      sampleWorld).2.2.2.2.1 rfl rfl).2,
    by decide,
    ((C4_record_execution_calls sampleEnv sampleOp sampleRecord cudaContext
      sampleWorld).2.2.2.2.2.2.2 sampleEnv cudaContext sampleWorld rfl).1⟩

/-- Counterexample to C4 as stated: when the driver refuses to load the stored binary,
the execution with the record makes the load call only and fails; its calls are not the
four calls load, resolve, launch, unload. -/
theorem C4_counterexample_load_refused :
    callsOf sampleWorld (compute envLoadFails sampleOp (.tvm sampleRecord) cudaContext
      sampleWorld).2 = [.cuModuleLoadDataEx "ptx"] ∧
    callsOf sampleWorld (compute envLoadFails sampleOp (.tvm sampleRecord) cudaContext
      sampleWorld).2 ≠
        [.cuModuleLoadDataEx "ptx", .cuModuleGetFunction 0 "mem_bound_7_kernel0",
         .cuLaunchKernel { module := 0, name := "mem_bound_7_kernel0" } 1 1 1 16 1 1 0
           [4096, 8192, 12288],
         .cuModuleUnload 0] ∧
    (compute envLoadFails sampleOp (.tvm sampleRecord) cudaContext sampleWorld).1 =
      .error (.cudaError 200) :=
  ⟨rfl, by decide, rfl⟩

theorem kernelName_ne_empty (s : String) : "mem_bound_" ++ s ++ "_kernel0" ≠ "" := by
  intro h
  have := congrArg String.length h
  simp only [String.length_append] at this
  have h10 : "mem_bound_".length = 10 := by decide
  have h8 : "_kernel0".length = 8 := by decide
  have h0 : "".length = 0 := by decide
  omega

/-- C5: whenever `tune` returns a record, its entry-point name is "mem_bound_" followed
by the decimal guid of the operator and "_kernel0", which is not empty, and its launch
configuration has exactly six integers, the first six entries of the list the
synthesizer returned, in order; when the synthesizer returns fewer than six entries,
`tune` fails. -/
theorem C5_record_name_and_launch_configuration (env : Env) (op : MemBoundObj)
    (ctx : RuntimeObj) (w0 : World) :
    (∀ rec, (tune env op ctx w0).1 = .ok rec →
      ∃ code temp r, answerOf env op w0 = .returned code temp ∧ rec = .tvm r ∧
        r.kernelName = "mem_bound_" ++ to_string op.guid ++ "_kernel0" ∧
        r.kernelName ≠ "" ∧ r.invokeParams.length = 6 ∧
        r.invokeParams.map PyObj.int = temp.take 6) ∧
    (∀ code temp, answerOf env op w0 = .returned code temp → temp.length < 6 →
      ∃ e, (tune env op ctx w0).1 = .error e) := by
  constructor
  · intro rec hrec
    obtain ⟨code, temp, r, hans, hr, hk, hlen, hmap, -, -, -⟩ :=
      (tune_outcome env op ctx w0).2.2.2 rec hrec
    have hk2 : r.kernelName = "mem_bound_" ++ to_string op.guid ++ "_kernel0" := by
      rw [hk]; rfl
    exact ⟨code, temp, r, hans, hr, hk2, by rw [hk2]; exact kernelName_ne_empty _, hlen, hmap⟩
  · intro code temp hans hlt
    cases hres : (tune env op ctx w0).1 with
    | error e => exact ⟨e, rfl⟩
    | ok rec =>
      exfalso
      obtain ⟨code2, temp2, r, hans2, -, -, hlen, hmap, -, -, -⟩ :=
        (tune_outcome env op ctx w0).2.2.2 rec hres
      rw [hans] at hans2
      simp only [PyResult.returned.injEq] at hans2
      obtain ⟨-, rfl⟩ := hans2
      have := congrArg List.length hmap
      simp [hlen] at this
      omega

/-- Witness of C5: `tune` on the sample operator returns the sample record, named
"mem_bound_7_kernel0" with the configuration 1, 1, 1, 16, 1, 1; with a synthesizer that
returns five entries it fails. -/
theorem C5_record_witness :
    (tune sampleEnv sampleOp cudaContext sampleWorld).1 = .ok (.tvm sampleRecord) ∧
    (∃ code temp r, answerOf sampleEnv sampleOp sampleWorld = .returned code temp ∧
      PerfRecordObj.tvm sampleRecord = .tvm r ∧
      r.kernelName = "mem_bound_" ++ to_string sampleOp.guid ++ "_kernel0" ∧
      r.kernelName ≠ "" ∧ r.invokeParams.length = 6 ∧
      r.invokeParams.map PyObj.int = temp.take 6) ∧
    (∃ e, (tune envShortConfig sampleOp cudaContext sampleWorld).1 = .error e) :=
  ⟨rfl,
    (C5_record_name_and_launch_configuration sampleEnv sampleOp cudaContext sampleWorld).1
      _ rfl,
    (C5_record_name_and_launch_configuration envShortConfig sampleOp cudaContext
      sampleWorld).2 "code" [.int 1, .int 1, .int 1, .int 16, .int 1] rfl (by decide)⟩

/-- C6 as amended: `tune` never examines the verdict of the compiler: with a compiler
that answers the compile call differently (rejecting instead of accepting) it makes the
same calls and ends in the same way, be it with a failure or with a record; after the
compile call it always goes on to query the log size and the binary size and, unless
the run ends in undefined behaviour, to call the module load; whenever `tune` returns a
record, its calls were the thirteen of a full run, in which the image loaded is the
binary stored in the record; and whenever `tune` fails, the failure is a Python or cast
failure of the synthesizer step, undefined behaviour, or a driver result caught by
`checkCUresult`, none of which carries the log of the compiler. -/
theorem C6_compiler_verdict_not_examined (env : Env) (op : MemBoundObj) (ctx : RuntimeObj)
    (w0 : World) (verdict : World → nvrtcProgram → List String → nvrtcResult) :
    tune { env with nvrtcCompileProgram := verdict } op ctx w0 = tune env op ctx w0 ∧
    (∀ prog opts,
      Call.nvrtcCompileProgram prog opts ∈ callsOf w0 (tune env op ctx w0).2 →
      Call.nvrtcGetProgramLogSize prog ∈ callsOf w0 (tune env op ctx w0).2 ∧
      Call.nvrtcGetPTXSize prog ∈ callsOf w0 (tune env op ctx w0).2 ∧
      ((∃ image, Call.cuModuleLoadDataEx image ∈ callsOf w0 (tune env op ctx w0).2) ∨
        (tune env op ctx w0).1 = .error .undefinedBehaviour)) ∧
    (∀ r, (tune env op ctx w0).1 = .ok (.tvm r) →
      ∃ code, callsOf w0 (tune env op ctx w0).2 =
        tuneCalls env op code r w0.nextHandle (w0.nextHandle + 1)) ∧
    (∀ e, (tune env op ctx w0).1 = .error e →
      e = .pythonError true ∨ e = .pythonError false ∨ e = .castError ∨
        e = .undefinedBehaviour ∨ ∃ c, c ≠ CUDA_SUCCESS ∧ e = .cudaError c) := by
  refine ⟨rfl, (tune_outcome env op ctx w0).2.2.1.2, ?_,
    fun e he => (tune_outcome env op ctx w0).2.1 e he⟩
  intro r hr
  obtain ⟨code, temp, r2, -, hrec, -, -, -, ht, -, -⟩ :=
    (tune_outcome env op ctx w0).2.2.2 _ hr
  simp only [PerfRecordObj.tvm.injEq] at hrec
  subst hrec
  exact ⟨code, by simp [callsOf, ht]⟩

/-- Witness of C6: on the sample operator, a compiler that rejects (result 6) instead
of accepting changes nothing in the run of `tune`, which returns the sample record after
its thirteen calls; and the failure of the run in which the rejected binary is refused
by the driver is a driver result. -/
theorem C6_compiler_verdict_witness :
    tune { sampleEnv with nvrtcCompileProgram := fun _ _ _ => 6 } sampleOp cudaContext
        sampleWorld = tune sampleEnv sampleOp cudaContext sampleWorld ∧
    (tune sampleEnv sampleOp cudaContext sampleWorld).1 = .ok (.tvm sampleRecord) ∧
    (∃ code, callsOf sampleWorld (tune sampleEnv sampleOp cudaContext sampleWorld).2 =
      tuneCalls sampleEnv sampleOp code sampleRecord 0 1) ∧
    (tune envCompileRejects sampleOp cudaContext sampleWorld).1 = .error (.cudaError 200) ∧
    (Failure.cudaError 200 = .pythonError true ∨ Failure.cudaError 200 = .pythonError false ∨
      Failure.cudaError 200 = .castError ∨ Failure.cudaError 200 = .undefinedBehaviour ∨
      ∃ c, c ≠ CUDA_SUCCESS ∧ Failure.cudaError 200 = .cudaError c) :=
  ⟨(C6_compiler_verdict_not_examined sampleEnv sampleOp cudaContext sampleWorld
      (fun _ _ _ => 6)).1,
    rfl,
    (C6_compiler_verdict_not_examined sampleEnv sampleOp cudaContext sampleWorld
      (fun _ _ _ => 6)).2.2.1 sampleRecord rfl,
    rfl,
    (C6_compiler_verdict_not_examined envCompileRejects sampleOp cudaContext sampleWorld
      (fun _ _ _ => 0)).2.2.2 (.cudaError 200) rfl⟩

/-- Counterexample to C6 as stated, in two runs on the sample operator whose source the
compiler rejects (result 6).  In the first the driver refuses the binary: `tune` has
gone on to read the log and the binary and to load the binary, and fails only there,
with the driver result 200 and no log attached.  In the second every other call
succeeds: `tune` loads, resolves, launches and returns a record. -/
theorem C6_counterexample_rejected_source_is_loaded :
    envCompileRejects.nvrtcCompileProgram sampleWorld 0
      ["--gpu-architecture=compute_80", "--fmad=false"] ≠ NVRTC_SUCCESS ∧
    callsOf sampleWorld (tune envCompileRejects sampleOp cudaContext sampleWorld).2 =
      [requestOf envCompileRejects sampleOp,
       .nvrtcCreateProgram "code" "mem_bound_7.cu",
       .nvrtcCompileProgram 0 ["--gpu-architecture=compute_80", "--fmad=false"],
       .nvrtcGetProgramLogSize 0, .nvrtcGetPTXSize 0, .nvrtcGetProgramLog 0, .nvrtcGetPTX 0,
       .cuModuleLoadDataEx ""] ∧
    (tune envCompileRejects sampleOp cudaContext sampleWorld).1 = .error (.cudaError 200) ∧
    envCompileRejectsOnly.nvrtcCompileProgram sampleWorld 0
      ["--gpu-architecture=compute_80", "--fmad=false"] ≠ NVRTC_SUCCESS ∧
    (tune envCompileRejectsOnly sampleOp cudaContext sampleWorld).1 =
      .ok (.tvm sampleRecord) ∧
    callsOf sampleWorld (tune envCompileRejectsOnly sampleOp cudaContext sampleWorld).2 =
      [requestOf envCompileRejectsOnly sampleOp,
       .nvrtcCreateProgram "code" "mem_bound_7.cu",
       .nvrtcCompileProgram 0 ["--gpu-architecture=compute_80", "--fmad=false"],
       .nvrtcGetProgramLogSize 0, .nvrtcGetPTXSize 0, .nvrtcGetProgramLog 0, .nvrtcGetPTX 0,
       .cuModuleLoadDataEx "ptx", .cuModuleGetFunction 1 "mem_bound_7_kernel0",
       .cuLaunchKernel { module := 1, name := "mem_bound_7_kernel0" } 1 1 1 16 1 1 0
         [4096, 8192, 12288],
       .sync, .cuModuleUnload 1, .nvrtcDestroyProgram 0] :=
  ⟨by decide, rfl, rfl, by decide, rfl, rfl⟩

/-- C7 as amended: whenever `compute` with a record or `tune` returns normally, the
module it loaded has been unloaded and, in `tune`, the compiler program it created has
been destroyed, as the last calls it made: the loaded modules and the live compiler
programs are those from before the call. -/
theorem C7_resources_released_on_return (env : Env) (op : MemBoundObj) (ctx : RuntimeObj)
    (w0 : World) :
    (∀ r, (compute env op (.tvm r) ctx w0).1 = .ok () →
      (compute env op (.tvm r) ctx w0).2.modules = w0.modules ∧
      (compute env op (.tvm r) ctx w0).2.programs = w0.programs ∧
      (callsOf w0 (compute env op (.tvm r) ctx w0).2).getLast? =
        some (.cuModuleUnload w0.nextHandle)) ∧
    (∀ rec, (tune env op ctx w0).1 = .ok rec →
      (tune env op ctx w0).2.modules = w0.modules ∧
      (tune env op ctx w0).2.programs = w0.programs ∧
      ((callsOf w0 (tune env op ctx w0).2).drop 11) =
        [.cuModuleUnload (w0.nextHandle + 1), .nvrtcDestroyProgram w0.nextHandle]) := by
  constructor
  · intro r hr
    obtain ⟨ht, hm, hp⟩ := compute_ok env op r ctx w0 _ (Prod.ext hr rfl)
    exact ⟨hm, hp, by simp [callsOf, ht, recordCalls]⟩
  · intro rec hrec
    obtain ⟨code, temp, r, -, -, -, -, -, ht, hm, hp⟩ :=
      (tune_outcome env op ctx w0).2.2.2 rec hrec
    exact ⟨hm, hp, by simp [callsOf, ht, tuneCalls]⟩

/-- Witness of C7: the sample runs return normally and leave no module loaded and no
program alive. -/
theorem C7_resources_witness :
    (compute sampleEnv sampleOp (.tvm sampleRecord) cudaContext sampleWorld).1 = .ok () ∧
    (compute sampleEnv sampleOp (.tvm sampleRecord) cudaContext sampleWorld).2.modules
      = [] ∧
    (tune sampleEnv sampleOp cudaContext sampleWorld).1 = .ok (.tvm sampleRecord) ∧
    (tune sampleEnv sampleOp cudaContext sampleWorld).2.modules = [] ∧
    (tune sampleEnv sampleOp cudaContext sampleWorld).2.programs = [] :=
  ⟨rfl,
    ((C7_resources_released_on_return sampleEnv sampleOp cudaContext sampleWorld).1
      sampleRecord rfl).1,
    rfl,
    ((C7_resources_released_on_return sampleEnv sampleOp cudaContext sampleWorld).2
      _ rfl).1,
    ((C7_resources_released_on_return sampleEnv sampleOp cudaContext sampleWorld).2
      _ rfl).2.1⟩

/-- Counterexample to C7 as stated: when the entry point is not found, `compute` with a
record fails and leaves the module it loaded (handle 0) loaded; `tune` fails and leaves
its module (handle 1) loaded and its compiler program (handle 0) alive. -/
theorem C7_counterexample_resolution_failure_leaks :
    (compute envResolveFails sampleOp (.tvm sampleRecord) cudaContext sampleWorld).1 =
      .error (.cudaError 500) ∧
    sampleWorld.modules = [] ∧
    (compute envResolveFails sampleOp (.tvm sampleRecord) cudaContext sampleWorld).2.modules
      = [0] ∧
    (tune envResolveFails sampleOp cudaContext sampleWorld).1 = .error (.cudaError 500) ∧
    (tune envResolveFails sampleOp cudaContext sampleWorld).2.modules = [1] ∧
    (tune envResolveFails sampleOp cudaContext sampleWorld).2.programs = [0] :=
  ⟨rfl, rfl, rfl, rfl, rfl, rfl⟩

/-- C8, the code at the failing input: on a device whose every launch reports the error
1, `compute` with the sample record makes the launch and returns normally, and `tune`
makes the launch and returns a record. -/
theorem C8_launch_error_is_dropped :
    (∀ w f a b c d e g s p, envLaunchFails.cuLaunchKernel w f a b c d e g s p ≠ CUDA_SUCCESS) ∧
    Call.cuLaunchKernel { module := 0, name := "mem_bound_7_kernel0" } 1 1 1 16 1 1 0
        [4096, 8192, 12288] ∈
      callsOf sampleWorld (compute envLaunchFails sampleOp (.tvm sampleRecord) cudaContext
        sampleWorld).2 ∧
    (compute envLaunchFails sampleOp (.tvm sampleRecord) cudaContext sampleWorld).1 = .ok () ∧
    Call.cuLaunchKernel { module := 1, name := "mem_bound_7_kernel0" } 1 1 1 16 1 1 0
        [4096, 8192, 12288] ∈
      callsOf sampleWorld (tune envLaunchFails sampleOp cudaContext sampleWorld).2 ∧
    (tune envLaunchFails sampleOp cudaContext sampleWorld).1 = .ok (.tvm sampleRecord) :=
  ⟨fun _ _ _ _ _ _ _ _ _ _ h => Nat.succ_ne_zero 0 h, by decide, rfl, by decide, rfl⟩

/-- C9: the names `tune` derives are injective functions of the operator's guid: two
guids give the same function name "mem_bound_<guid>", the same entry-point name
"mem_bound_<guid>_kernel0" or the same file name "mem_bound_<guid>.cu" exactly when
they are equal; and these are the names `tune` passes to the synthesizer, the compiler
and the driver. -/
theorem C9_artifact_names_injective (a b : Int) :
    (funcOf a = funcOf b ↔ a = b) ∧
    (kernelNameOf a = kernelNameOf b ↔ a = b) ∧
    (fileNameOf a = fileNameOf b ↔ a = b) ∧
    (a ≠ b → funcOf a ≠ funcOf b ∧ kernelNameOf a ≠ kernelNameOf b ∧
      fileNameOf a ≠ fileNameOf b) ∧
    (funcOf a = "mem_bound_" ++ to_string a ∧ kernelNameOf a = funcOf a ++ "_kernel0" ∧
      fileNameOf a = funcOf a ++ ".cu") ∧
    (∀ (env : Env) (op : MemBoundObj) (ctx : RuntimeObj) (w0 : World),
      ∀ c ∈ callsOf w0 (tune env op ctx w0).2, TuneCall op c) := by
  have h1 : funcOf a = funcOf b ↔ a = b := by
    constructor
    · intro h
      exact to_string_injective a b (string_append_left_cancel _ _ _ h)
    · intro h; rw [h]
  have h2 : kernelNameOf a = kernelNameOf b ↔ a = b := by
    constructor
    · intro h
      exact h1.mp (string_append_right_cancel _ _ _ h)
    · intro h; rw [h]
  have h3 : fileNameOf a = fileNameOf b ↔ a = b := by
    constructor
    · intro h
      exact h1.mp (string_append_right_cancel _ _ _ h)
    · intro h; rw [h]
  refine ⟨h1, h2, h3, ?_, ⟨rfl, rfl, rfl⟩, ?_⟩
  · intro hab
    exact ⟨fun h => hab (h1.mp h), fun h => hab (h2.mp h), fun h => hab (h3.mp h)⟩
  · intro env op ctx w0
    exact (tune_outcome env op ctx w0).1

/-- Witness of C9: the guids 7 and 8 give different names. -/
theorem C9_artifact_names_witness :
    (7 : Int) ≠ 8 ∧ funcOf 7 = "mem_bound_7" ∧ kernelNameOf 7 = "mem_bound_7_kernel0" ∧
    fileNameOf 7 = "mem_bound_7.cu" ∧
    (funcOf 7 ≠ funcOf 8 ∧ kernelNameOf 7 ≠ kernelNameOf 8 ∧ fileNameOf 7 ≠ fileNameOf 8) :=
  ⟨by decide, by decide, by decide, by decide,
    (C9_artifact_names_injective 7 8).2.2.2.1 (by decide)⟩

end infini
